import Mathlib

/-! BCSimulatorItem: a shallow embedding of `src/BCSimulatorItem.cpp`.

The C++ objects become records and the member functions become pure functions
that thread the records through.  Conventions:

* a `double` is an exact rational (`Double`); rounding, infinities and NaN are
  outside the model;
* the kinematics kernels of the host library (`LinkTraverse::calcForwardKinematics`,
  `Body::calcForwardKinematics`, `DyBody::calcSpatialForwardKinematics`) belong to
  the host library, not to the plugin.  They are taken as a parameter (`KinematicsKernel`) that
  supplies the recomputed Cartesian state of every link except the first link of the
  traversal, which is the input of the recursion and is never written;
* the archive, `FloatingNumberString`, the hook sets of `SimulatorItem` and the body table
  of the world also belong to the host library; they are modelled by what the plugin
  observes of them (a key returns what was written under it, a registration returns a
  fresh id, an added body gets the next index);
* the one place where the code compares computed doubles against a tolerance, the rate
  guard of `HighGainControllerItem::start`, is taken as a parameter (`rateDiffers`): the
  rounded comparison of the machine and the exact one disagree near the tolerance;
* pointers to bodies are natural-number identities.
-/

namespace BCSimulator

/-! ## Scalars, vectors, poses -/

/-- A C++ `double`, modelled as an exact rational. -/
abbrev Double := ℚ

/-- An Eigen `Vector3`. -/
structure Vector3 where
  x : Double
  y : Double
  z : Double
  deriving DecidableEq, Repr

/-- The result of `setZero()` on a `Vector3`. -/
def Vector3.zero : Vector3 := ⟨0, 0, 0⟩

/-- An Eigen `Matrix3`, by rows. -/
structure Matrix3 where
  r0 : Vector3
  r1 : Vector3
  r2 : Vector3
  deriving DecidableEq, Repr

/-- The identity rotation. -/
def Matrix3.identity : Matrix3 := ⟨⟨1, 0, 0⟩, ⟨0, 1, 0⟩, ⟨0, 0, 1⟩⟩

/-- A `Position` (an affine transform): translation and rotation. -/
structure Position where
  translation : Vector3
  linear : Matrix3
  deriving DecidableEq, Repr

/-! ## Links and bodies -/

/-- The fields of a `DyLink` that the simulator item reads or writes. -/
structure DyLink where
  p : Vector3
  R : Matrix3
  v : Vector3
  w : Vector3
  vo : Vector3
  dv : Vector3
  dw : Vector3
  dvo : Vector3
  q : Double
  dq : Double
  ddq : Double
  u : Double
  f_ext : Vector3
  tau_ext : Vector3
  deriving DecidableEq, Repr

/-- The Cartesian part of a link state: what a kinematics pass recomputes. -/
structure CartesianState where
  p : Vector3
  R : Matrix3
  v : Vector3
  w : Vector3
  vo : Vector3
  dv : Vector3
  dw : Vector3
  dvo : Vector3
  deriving DecidableEq, Repr

/-- Read the Cartesian part of a link. -/
def DyLink.cartesian (l : DyLink) : CartesianState :=
  ⟨l.p, l.R, l.v, l.w, l.vo, l.dv, l.dw, l.dvo⟩

/-- Overwrite the Cartesian part of a link; joint state, torque and external force stay. -/
def DyLink.setCartesian (l : DyLink) (c : CartesianState) : DyLink :=
  { l with p := c.p, R := c.R, v := c.v, w := c.w, vo := c.vo, dv := c.dv, dw := c.dw,
           dvo := c.dvo }

/-- The method `Link::setPosition(T)`: sets `p` and `R`. -/
def DyLink.setPosition (l : DyLink) (T : Position) : DyLink :=
  { l with p := T.translation, R := T.linear }

/-- The pose of a link, as `Link::position()` returns it. -/
def DyLink.position (l : DyLink) : Position := ⟨l.p, l.R⟩

/-- A link with every field zero and the identity rotation. -/
def DyLink.origin : DyLink :=
  { p := Vector3.zero, R := Matrix3.identity, v := Vector3.zero, w := Vector3.zero,
    vo := Vector3.zero, dv := Vector3.zero, dw := Vector3.zero, dvo := Vector3.zero,
    q := 0, dq := 0, ddq := 0, u := 0, f_ext := Vector3.zero, tau_ext := Vector3.zero }

/-- A `DyBody`: its links in traversal order (`link(0)` is the root link) and the
link index of every joint id (`joint(i)` is `link(jointIdToLink[i])`). -/
structure DyBody where
  links : List DyLink
  jointIdToLink : List Nat
  deriving DecidableEq, Repr

/-- The call `body->numLinks()`. -/
def DyBody.numLinks (b : DyBody) : Nat := b.links.length

/-- The call `body->numJoints()`. -/
def DyBody.numJoints (b : DyBody) : Nat := b.jointIdToLink.length

/-- The link `body->link(i)`, when there is one. -/
def DyBody.link (b : DyBody) (i : Nat) : Option DyLink := b.links[i]?

/-- The link `body->rootLink()`, when there is one. -/
def DyBody.rootLink (b : DyBody) : Option DyLink := b.links[0]?

/-- Apply an in-place update to `body->link(i)`. -/
def DyBody.modifyLink (b : DyBody) (i : Nat) (f : DyLink → DyLink) : DyBody :=
  { b with links := b.links.modify f i }

/-- Apply an in-place update to every link, the update may depend on the link index
(counted from `start`). -/
def mapLinksFrom (f : Nat → DyLink → DyLink) : Nat → List DyLink → List DyLink
  | _, [] => []
  | i, l :: ls => f i l :: mapLinksFrom f (i + 1) ls

/-- The recomputed Cartesian state of link `i`, given the first link `root` of the
traversal and the state of all links before the pass.  This is the part of the host
library that is taken as a parameter. -/
abbrev KinematicsKernel := Nat → List DyLink → Nat → CartesianState

/-- The method `LinkTraverse::calcForwardKinematics(true, true)` for a traversal whose
first link is `root`: the first link is the input and is left as it is, every other link
gets the Cartesian state the kernel computes. -/
def calcForwardKinematicsFrom (kernel : KinematicsKernel) (root : Nat) (b : DyBody) : DyBody :=
  let recompute : Nat → DyLink → DyLink :=
    fun i l => if i = root then l else l.setCartesian (kernel root b.links i)
  { b with links := mapLinksFrom recompute 0 b.links }

/-- The method `Body::calcForwardKinematics(true, true)`: the traversal from the root link. -/
def DyBody.calcForwardKinematics (kernel : KinematicsKernel) (b : DyBody) : DyBody :=
  calcForwardKinematicsFrom kernel 0 b

/-- The method `DyBody::calcSpatialForwardKinematics()`: links that have a parent are
recomputed from the root link. -/
def DyBody.calcSpatialForwardKinematics (kernel : KinematicsKernel) (b : DyBody) : DyBody :=
  calcForwardKinematicsFrom kernel 0 b

/-- The method `Body::clearExternalForces()`. -/
def DyBody.clearExternalForces (b : DyBody) : DyBody :=
  { b with links := b.links.map (fun l => { l with f_ext := Vector3.zero, tau_ext := Vector3.zero }) }

/-! ## Mode selections

A `Selection` is carried as the selected enumerator; the symbol tables are the ones the
constructor of `BCSimulatorItemImpl` installs with `setSymbol`. -/

/-- The enumeration `BCSimulatorItem::DynamicsMode`. -/
inductive DynamicsMode where
  | FORWARD_DYNAMICS
  | HG_DYNAMICS
  | KINEMATICS
  deriving DecidableEq, Repr

/-- The enumeration `BCSimulatorItem::IntegrationMode`. -/
inductive IntegrationMode where
  | EULER_INTEGRATION
  | RUNGE_KUTTA_INTEGRATION
  deriving DecidableEq, Repr

/-- The enumeration `BCSimulatorItem::SolverMode`. -/
inductive SolverMode where
  | SLV_GAUSS_SEIDEL
  | SLV_SICONOS
  | SLV_QMR
  deriving DecidableEq, Repr

/-- A `FloatingNumberString`: the value `v` and its text `s`. -/
structure FloatingNumberString where
  v : Double
  s : String
  deriving DecidableEq, Repr

/-- The accessor `value()`. -/
def FloatingNumberString.value (f : FloatingNumberString) : Double := f.v

/-- The accessor `string()`. -/
def FloatingNumberString.string (f : FloatingNumberString) : String := f.s

/-- Assignment from a text: the text is parsed by `strtod`; when it parses, value and
text are replaced, otherwise the object is left as it is. -/
def FloatingNumberString.assign (strtod : String → Option Double) (f : FloatingNumberString)
    (text : String) : FloatingNumberString :=
  match strtod text with
  | some x => { v := x, s := text }
  | none => f

/-- A node of the archive. -/
inductive ValueNode where
  | string (s : String)
  | double (x : Double)
  | int (i : Int)
  | bool (b : Bool)
  | listing (xs : List Double)
  deriving DecidableEq, Repr

/-- An `Archive`: the key/value pairs of a mapping. -/
abbrev Archive := List (String × ValueNode)

/-- The node under a key. -/
def Archive.find (a : Archive) (key : String) : Option ValueNode :=
  (List.find? (fun kv => kv.1 == key) a).map Prod.snd

/-- The settings of `BCConstraintForceSolver` that the simulator item reads and writes. -/
structure BCConstraintForceSolver where
  solverID : Int
  staticFriction : Double
  slipFriction : Double
  contactCullingDistance : Double
  contactCullingDepth : Double
  coefficientOfRestitution : Double
  gaussSeidelErrorCriterion : Double
  gaussSeidelMaxNumIterations : Int
  contactCorrectionDepth : Double
  contactCorrectionVelocityRatio : Double
  is2Dmode : Bool
  penaltyKpCoef : Double
  penaltyKvCoef : Double
  penaltySizeRatio : Double
  collisionDetector : Nat
  deriving DecidableEq, Repr

/-- The numeric integrator of the world. -/
inductive IntegrationMethod where
  | EULER_METHOD
  | RUNGE_KUTTA_METHOD
  deriving DecidableEq, Repr

/-- A `ForwardDynamicsCBM` delegate handed to `world.addBody`. -/
structure ForwardDynamicsCBM where
  highGainModeForAllJoints : Bool
  deriving DecidableEq, Repr

/-- The method `make_shared_aligned<ForwardDynamicsCBM>(body)`: no joint is high-gain yet. -/
def ForwardDynamicsCBM.new : ForwardDynamicsCBM := ⟨false⟩

/-- The method `cbm->setHighGainModeForAllJoints()`. -/
def ForwardDynamicsCBM.setHighGainModeForAllJoints (_ : ForwardDynamicsCBM) :
    ForwardDynamicsCBM := ⟨true⟩

/-- An entry of the world: the body (by identity) and the delegate it was added with,
if it was added with one. -/
structure BodyInfo where
  body : Nat
  forwardDynamics : Option ForwardDynamicsCBM
  deriving DecidableEq, Repr

/-- The `World<BCConstraintForceSolver>`. -/
structure World where
  constraintForceSolver : BCConstraintForceSolver
  integrationMethod : IntegrationMethod
  gravityAcceleration : Vector3
  sensorsEnabled : Bool
  timeStep : Double
  currentTime : Double
  bodyInfoArray : List BodyInfo
  deriving DecidableEq, Repr

/-- The method `world.addBody(body)` and `world.addBody(body, cbm)`: the entry is appended
and its index is the handle returned. -/
def World.addBody (world : World) (body : Nat) (forwardDynamics : Option ForwardDynamicsCBM) :
    Nat × World :=
  (world.bodyInfoArray.length,
    { world with bodyInfoArray := world.bodyInfoArray ++ [⟨body, forwardDynamics⟩] })

/-- The method `world.clearBodies()`. -/
def World.clearBodies (world : World) : World := { world with bodyInfoArray := [] }

/-! ## Simulation bodies -/

/-- The dynamic type of a controller item attached to a body. -/
inductive ControllerKind where
  | HighGainControllerItem
  | otherControllerItem
  deriving DecidableEq, Repr

/-- The class `LeggedBodyHelper`: the link index of every foot. -/
structure LeggedBodyHelper where
  footLinks : List Nat
  deriving DecidableEq, Repr

/-- The call `legged->numFeet()`. -/
def LeggedBodyHelper.numFeet (legged : LeggedBodyHelper) : Nat := legged.footLinks.length

/-- The call `legged->footLink(i)`, a link index. -/
def LeggedBodyHelper.footLink (legged : LeggedBodyHelper) (i : Nat) : Nat :=
  legged.footLinks.getD i 0

/-- A `LinkTraverse` after `find(root, true, true)`: the walk over the link tree that
starts at `root`. -/
structure LinkTraverse where
  root : Nat
  deriving DecidableEq, Repr

/-- The method `traverse.find(root, true, true)`. -/
def LinkTraverse.find (root : Nat) : LinkTraverse := ⟨root⟩

/-- The walking state that `KinematicWalkBody` adds to `BCSimBody`. -/
structure KinematicWalk where
  legged : LeggedBodyHelper
  supportFootIndex : Nat
  traverse : LinkTraverse
  deriving DecidableEq, Repr

/-- A `SimulationBody` of this simulator: a `BCSimBody`, which is a `KinematicWalkBody`
when `walk` is present.  `identity` stands for the address of the body. -/
structure BCSimBody where
  identity : Nat
  body : DyBody
  controller : Option ControllerKind
  walk : Option KinematicWalk
  deriving DecidableEq, Repr

/-- The height `link->p().z()` of a link of a body. -/
def DyBody.height (b : DyBody) (link : Nat) : Double := (b.links.getD link DyLink.origin).p.z

/-- The loop of the constructor of `KinematicWalkBody`: over `i = 1 .. numFeet - 1`, a foot
strictly lower than the current candidate replaces it. -/
def initialSupportFootIndex (body : DyBody) (legged : LeggedBodyHelper) : Nat :=
  (List.range' 1 (legged.numFeet - 1)).foldl
    (fun supportFootIndex i =>
      if body.height (legged.footLink i) < body.height (legged.footLink supportFootIndex)
      then i else supportFootIndex)
    0

/-- The constructor `KinematicWalkBody(body, legged)`. -/
def KinematicWalkBody (identity : Nat) (body : DyBody) (legged : LeggedBodyHelper) : BCSimBody :=
  let supportFootIndex := initialSupportFootIndex body legged
  { identity := identity, body := body, controller := none,
    walk := some
      { legged := legged, supportFootIndex := supportFootIndex,
        traverse := LinkTraverse.find (legged.footLink supportFootIndex) } }

/-- The constructor `BCSimBody(body)`. -/
def BCSimBody.new (identity : Nat) (body : DyBody) : BCSimBody :=
  { identity := identity, body := body, controller := none, walk := none }

/-! ## The kinematic walk of `stepSimulation` -/

/-- The scan of `stepSimulation` over the feet `i = 0 .. n - 1`: the pair
`(nextSupportFootIndex, nextSupportFoot)` starts at the support foot, and a foot other
than the support foot that is strictly lower than the current candidate replaces it. -/
def scanNextSupportFoot (body : DyBody) (legged : LeggedBodyHelper) (supportFootIndex : Nat) :
    Nat × Nat :=
  (List.range legged.numFeet).foldl
    (fun next i =>
      if i ≠ supportFootIndex then
        if body.height (legged.footLink i) < body.height next.2 then (i, legged.footLink i)
        else next
      else next)
    (supportFootIndex, legged.footLink supportFootIndex)

/-- The assignment `link->p().z() = z`. -/
def DyLink.setHeight (l : DyLink) (z : Double) : DyLink := { l with p := { l.p with z := z } }

/-- The body of a walking body after the first pass
`walkBody->traverse.calcForwardKinematics(true, true)` of a step: the state in which the
switch of the support foot is decided. -/
def decisionBody (kernel : KinematicsKernel) (body : DyBody) (walk : KinematicWalk) : DyBody :=
  calcForwardKinematicsFrom kernel walk.traverse.root body

/-- The branch of `stepSimulation` for a `KinematicWalkBody`. -/
def stepWalkBody (kernel : KinematicsKernel) (body : DyBody) (walk : KinematicWalk) :
    DyBody × KinematicWalk :=
  let body1 := decisionBody kernel body walk
  let legged := walk.legged
  let supportFootIndex := walk.supportFootIndex
  let supportFoot := legged.footLink supportFootIndex
  let next := scanNextSupportFoot body1 legged supportFootIndex
  let nextSupportFootIndex := next.1
  let nextSupportFoot := next.2
  if nextSupportFoot ≠ supportFoot then
    let body2 := body1.modifyLink nextSupportFoot (fun l => l.setHeight (body1.height supportFoot))
    let traverse := LinkTraverse.find nextSupportFoot
    (calcForwardKinematicsFrom kernel traverse.root body2,
      { walk with supportFootIndex := nextSupportFootIndex, traverse := traverse })
  else
    (body1, walk)

/-- One iteration of the body loop of `stepSimulation` in kinematics mode with walking
enabled. -/
def stepKinematicWalking (kernel : KinematicsKernel) (simBody : BCSimBody) : BCSimBody :=
  match simBody.walk with
  | none => { simBody with body := simBody.body.calcForwardKinematics kernel }
  | some walk =>
    let r := stepWalkBody kernel simBody.body walk
    { simBody with body := r.1, walk := some r.2 }

/-- The method `BCSimulatorItem::stepSimulation(activeSimBodies)`, on the selected dynamics
mode and the walking flag.  `calcNextState` is the step of the external world; the vector
holds pointers, the bodies are returned in their state after the call. -/
def stepSimulation (dynamicsMode : DynamicsMode) (isKinematicWalkingEnabled : Bool)
    (calcNextState : List BCSimBody → List BCSimBody) (kernel : KinematicsKernel)
    (activeSimBodies : List BCSimBody) : Bool × List BCSimBody :=
  if dynamicsMode ≠ .KINEMATICS then
    (true, calcNextState activeSimBodies)
  else if !isKinematicWalkingEnabled then
    (true, activeSimBodies.map
      (fun simBody => { simBody with body := simBody.body.calcForwardKinematics kernel }))
  else
    (true, activeSimBodies.map (stepKinematicWalking kernel))

/-! ## The simulator item -/

/-- The member functions the item hands to the host as hooks. -/
inductive HookFunction where
  | clearExternalForces
  | doSetForcedBodyPosition
  deriving DecidableEq, Repr

/-- A set of hook functions of the host: each registration gets the next id. -/
structure FunctionSet where
  functions : List (Int × HookFunction)
  idCounter : Int
  deriving DecidableEq, Repr

/-- Register a function; the id of the registration is returned. -/
def FunctionSet.add (fs : FunctionSet) (f : HookFunction) : Int × FunctionSet :=
  (fs.idCounter, { functions := fs.functions ++ [(fs.idCounter, f)], idCounter := fs.idCounter + 1 })

/-- Remove the registration with the given id. -/
def FunctionSet.remove (fs : FunctionSet) (id : Int) : FunctionSet :=
  { fs with functions := fs.functions.filter (fun e => e.1 != id) }

/-- The state of the base class `SimulatorItem` that the item uses: the time step, the
simulation bodies of the run, the collision detector and the registered hooks. -/
structure SimulatorItem where
  worldTimeStep : Double
  simBodies : List BCSimBody
  collisionDetector : Nat
  preDynamicsFunctions : FunctionSet
  postDynamicsFunctions : FunctionSet
  deriving DecidableEq, Repr

/-- The method `self->findSimulationBody(bodyItem)`: the simulation body of the run made
for the body item, if the item is part of the run. -/
def SimulatorItem.findSimulationBody (self : SimulatorItem) (bodyItem : Nat) : Option BCSimBody :=
  self.simBodies.find? (fun simBody => simBody.identity == bodyItem)

/-- The class `BCSimulatorItemImpl`, with the state of its `self`. -/
structure BCSimulatorItemImpl where
  self : SimulatorItem
  world : World
  dynamicsMode : DynamicsMode
  integrationMode : IntegrationMode
  solverMode : SolverMode
  gravity : Vector3
  staticFriction : Double
  slipFriction : Double
  contactCullingDistance : FloatingNumberString
  contactCullingDepth : FloatingNumberString
  errorCriterion : FloatingNumberString
  maxNumIterations : Int
  contactCorrectionDepth : FloatingNumberString
  contactCorrectionVelocityRatio : FloatingNumberString
  epsilon : Double
  is2Dmode : Bool
  isKinematicWalkingEnabled : Bool
  bodyIndexMap : List (Nat × Nat)
  forcedBodyPositionFunctionId : Option Int
  forcedPositionBody : Option Nat
  forcedBodyPosition : Position
  penaltyKpCoef : Double
  penaltyKvCoef : Double
  penaltySizeRatio : Double
  deriving DecidableEq, Repr

/-- The lookup `bodyIndexMap[body]` of an existing key. -/
def lookupBodyIndex (bodyIndexMap : List (Nat × Nat)) (body : Nat) : Option Nat :=
  (List.find? (fun kv => kv.1 == body) bodyIndexMap).map Prod.snd

/-- The assignment `bodyIndexMap[body] = index`. -/
def assignBodyIndex (bodyIndexMap : List (Nat × Nat)) (body : Nat) (index : Nat) :
    List (Nat × Nat) :=
  (body, index) :: bodyIndexMap.filter (fun kv => kv.1 != body)

/-- The writes of `addBody` to the root link: `v`, `dv`, `w`, `dw`, `vo`, `dvo` set to zero. -/
def resetRootLink (rootLink : DyLink) : DyLink :=
  { rootLink with v := Vector3.zero, dv := Vector3.zero, w := Vector3.zero, dw := Vector3.zero,
                  vo := Vector3.zero, dvo := Vector3.zero }

/-- The writes of the link loop of `addBody`: `u`, `dq`, `ddq` set to zero. -/
def resetLink (link : DyLink) : DyLink := { link with u := 0, dq := 0, ddq := 0 }

/-- The decision of `addBody`: the global mode is high-gain dynamics, or the controller of
the body casts to `HighGainControllerItem`. -/
def isHighGainMode (dynamicsMode : DynamicsMode) (controller : Option ControllerKind) : Bool :=
  let isHighGainMode := decide (dynamicsMode = .HG_DYNAMICS)
  if controller = some .HighGainControllerItem then true else isHighGainMode

/-- The method `BCSimulatorItemImpl::addBody(simBody)`: the item after the call and the
body in its state after the call. -/
def BCSimulatorItemImpl.addBody (kernel : KinematicsKernel) (impl : BCSimulatorItemImpl)
    (simBody : BCSimBody) : BCSimulatorItemImpl × BCSimBody :=
  let body0 := simBody.body.modifyLink 0 resetRootLink
  let highGain := isHighGainMode impl.dynamicsMode simBody.controller
  let body1 := { body0 with links := body0.links.map resetLink }
  let body2 := body1.clearExternalForces
  let body3 := body2.calcForwardKinematics kernel
  let added :=
    if highGain then
      let cbm := ForwardDynamicsCBM.new.setHighGainModeForAllJoints
      impl.world.addBody simBody.identity (some cbm)
    else
      impl.world.addBody simBody.identity none
  ({ impl with world := added.2,
               bodyIndexMap := assignBodyIndex impl.bodyIndexMap simBody.identity added.1 },
   { simBody with body := body3 })

/-- The body loop of `initializeSimulation`: `addBody` for every entry of the vector. -/
def addBodies (kernel : KinematicsKernel) :
    BCSimulatorItemImpl → List BCSimBody → BCSimulatorItemImpl × List BCSimBody
  | impl, [] => (impl, [])
  | impl, simBody :: rest =>
    let r := impl.addBody kernel simBody
    let rs := addBodies kernel r.1 rest
    (rs.1, r.2 :: rs.2)

/-- The solver id that `initializeSimulation` passes to `cfs.setSolverID`. -/
def solverID : SolverMode → Int
  | .SLV_GAUSS_SEIDEL => 0
  | .SLV_SICONOS => 1
  | .SLV_QMR => 2

/-- The method `BCSimulatorItemImpl::initializeSimulation(simBodies)`.  `kernel` is the
kinematics pass of `addBody`; `worldKernel` stands for the passes that `world.initialize()`
runs over the bodies it was given.  The vector holds pointers, the bodies are returned in
their state after the call. -/
def BCSimulatorItemImpl.initializeSimulation (kernel worldKernel : KinematicsKernel)
    (impl : BCSimulatorItemImpl) (simBodies : List BCSimBody) :
    Bool × BCSimulatorItemImpl × List BCSimBody :=
  let world1 : World :=
    { impl.world with
      integrationMethod :=
        match impl.integrationMode with
        | .EULER_INTEGRATION => .EULER_METHOD
        | .RUNGE_KUTTA_INTEGRATION => .RUNGE_KUTTA_METHOD
      gravityAcceleration := impl.gravity
      sensorsEnabled := true
      timeStep := impl.self.worldTimeStep
      currentTime := 0 }
  let cfs1 : BCConstraintForceSolver :=
    { world1.constraintForceSolver with
      solverID := solverID impl.solverMode
      gaussSeidelErrorCriterion := impl.errorCriterion.value
      gaussSeidelMaxNumIterations := impl.maxNumIterations
      contactCorrectionDepth := impl.contactCorrectionDepth.value
      contactCorrectionVelocityRatio := impl.contactCorrectionVelocityRatio.value }
  let pre := impl.self.preDynamicsFunctions.add .clearExternalForces
  let impl1 : BCSimulatorItemImpl :=
    { impl with
      self := { impl.self with preDynamicsFunctions := pre.2 }
      world := { world1 with constraintForceSolver := cfs1 }.clearBodies
      bodyIndexMap := [] }
  let added := addBodies kernel impl1 simBodies
  let impl2 := added.1
  let cfs2 : BCConstraintForceSolver :=
    { impl2.world.constraintForceSolver with
      staticFriction := impl2.staticFriction
      slipFriction := impl2.slipFriction
      contactCullingDistance := impl2.contactCullingDistance.value
      contactCullingDepth := impl2.contactCullingDepth.value
      coefficientOfRestitution := impl2.epsilon
      collisionDetector := impl2.self.collisionDetector }
  let cfs3 : BCConstraintForceSolver := if impl2.is2Dmode then { cfs2 with is2Dmode := true } else cfs2
  let cfs4 : BCConstraintForceSolver :=
    { cfs3 with
      penaltyKpCoef := impl2.penaltyKpCoef
      penaltyKvCoef := impl2.penaltyKvCoef
      penaltySizeRatio := impl2.penaltySizeRatio }
  (true, { impl2 with world := { impl2.world with constraintForceSolver := cfs4 } },
    added.2.map (fun simBody => { simBody with body := simBody.body.calcForwardKinematics worldKernel }))

/-! ## Forced body position -/

/-- The method `BCSimulatorItemImpl::setForcedBodyPosition(bodyItem, T)`. -/
def BCSimulatorItemImpl.setForcedBodyPosition (impl : BCSimulatorItemImpl) (bodyItem : Nat)
    (T : Position) : BCSimulatorItemImpl :=
  match impl.self.findSimulationBody bodyItem with
  | some simBody =>
    let impl1 := { impl with forcedPositionBody := some simBody.identity, forcedBodyPosition := T }
    if impl1.forcedBodyPositionFunctionId.isNone then
      let r := impl1.self.postDynamicsFunctions.add .doSetForcedBodyPosition
      { impl1 with
        self := { impl1.self with postDynamicsFunctions := r.2 }
        forcedBodyPositionFunctionId := some r.1 }
    else impl1
  | none => impl

/-- The method `BCSimulatorItem::clearForcedBodyPositions()`. -/
def BCSimulatorItemImpl.clearForcedBodyPositions (impl : BCSimulatorItemImpl) :
    BCSimulatorItemImpl :=
  match impl.forcedBodyPositionFunctionId with
  | some id =>
    { impl with
      self := { impl.self with postDynamicsFunctions := impl.self.postDynamicsFunctions.remove id }
      forcedBodyPositionFunctionId := none }
  | none => impl

/-- The writes of `doSetForcedBodyPosition` to the root link: the pose is set, `v`, `w`
and `vo` are set to zero. -/
def forceRootLink (T : Position) (rootLink : DyLink) : DyLink :=
  { rootLink.setPosition T with v := Vector3.zero, w := Vector3.zero, vo := Vector3.zero }

/-- The method `BCSimulatorItemImpl::doSetForcedBodyPosition()`: it acts on the body that
`forcedPositionBody` points to. -/
def BCSimulatorItemImpl.doSetForcedBodyPosition (kernel : KinematicsKernel)
    (impl : BCSimulatorItemImpl) : BCSimulatorItemImpl :=
  match impl.forcedPositionBody with
  | some target =>
    { impl with
      self := { impl.self with
        simBodies := impl.self.simBodies.map (fun simBody =>
          if simBody.identity = target then
            { simBody with
              body := (simBody.body.modifyLink 0
                (forceRootLink impl.forcedBodyPosition)).calcSpatialForwardKinematics kernel }
          else simBody) } }
  | none => impl

/-- A sequence of `setForcedBodyPosition` calls, in order. -/
def setForcedBodyPositions (impl : BCSimulatorItemImpl) (calls : List (Nat × Position)) :
    BCSimulatorItemImpl :=
  calls.foldl (fun acc call => acc.setForcedBodyPosition call.1 call.2) impl

/-! ## Properties -/

/-- A `MultiValueSeq`: the frame rate and the frames, each a list of joint positions. -/
structure MultiValueSeq where
  frameRate : Double
  numParts : Nat
  frames : List (List Double)
  deriving DecidableEq, Repr

/-- The call `qseqRef->numFrames()`. -/
def MultiValueSeq.numFrames (seq : MultiValueSeq) : Int := seq.frames.length

/-- The call `qseqRef->getTimeStep()`. -/
def MultiValueSeq.getTimeStep (seq : MultiValueSeq) : Double := 1 / seq.frameRate

/-- The element `qseqRef->frame(f)[i]`. -/
def MultiValueSeq.frame (seq : MultiValueSeq) (f : Int) (i : Nat) : Double :=
  (seq.frames.getD f.toNat []).getD i 0

/-- The target of a controller: the body and the time step of the world. -/
structure Target where
  body : DyBody
  worldTimeStep : Double
  deriving DecidableEq, Repr

/-- The class `HighGainControllerItem`; the body it drives is passed to `output`. -/
structure HighGainControllerItem where
  qseqRef : MultiValueSeq
  currentFrame : Int
  lastFrame : Int
  numJoints : Int
  deriving DecidableEq, Repr

/-- The method `HighGainControllerItem::control()`. -/
def HighGainControllerItem.control (c : HighGainControllerItem) : Bool × HighGainControllerItem :=
  let c1 := { c with currentFrame := c.currentFrame + 1 }
  if c1.currentFrame > c1.lastFrame then
    (false, { c1 with currentFrame := c1.lastFrame })
  else
    (true, c1)

/-- The method `HighGainControllerItem::start(target)`.  `rateDiffers frameRate worldTimeStep`
is the value the machine computes for `fabs(frameRate - (1.0 / worldTimeStep)) > 1.0e-6` in
double arithmetic.  It is a parameter: the model does not say which rates pass the guard. -/
def HighGainControllerItem.start (rateDiffers : Double → Double → Bool)
    (c : HighGainControllerItem) (target : Target) : Bool × HighGainControllerItem :=
  let c1 : HighGainControllerItem :=
    { c with
      currentFrame := 0
      lastFrame := max 0 (c.qseqRef.numFrames - 1)
      numJoints := min (target.body.numJoints : Int) (c.qseqRef.numParts : Int) }
  if c1.qseqRef.numFrames = 0 then
    (false, c1)
  else if rateDiffers c1.qseqRef.frameRate target.worldTimeStep then
    (false, c1)
  else
    (true, c1.control.2)

/-- The link `body->joint(i)`, when there is one. -/
def DyBody.joint (b : DyBody) (i : Nat) : Option DyLink :=
  match b.jointIdToLink[i]? with
  | some link => b.links[link]?
  | none => none

/-- The body of the joint loop of `output()` for joint `i`. -/
def outputJoint (seq : MultiValueSeq) (prevFrame currentFrame nextFrame : Int) (body : DyBody)
    (i : Nat) : DyBody :=
  let q0 := seq.frame prevFrame i
  let q1 := seq.frame currentFrame i
  let q2 := seq.frame nextFrame i
  let dt := seq.getTimeStep
  let dt2 := dt * dt
  match body.jointIdToLink[i]? with
  | some link =>
    body.modifyLink link
      (fun joint => { joint with q := q1, dq := (q2 - q1) / dt, ddq := (q2 - 2 * q1 + q0) / dt2 })
  | none => body

/-- The method `HighGainControllerItem::output()`, acting on the body of the target. -/
def HighGainControllerItem.output (c : HighGainControllerItem) (body : DyBody) : DyBody :=
  let prevFrame := max (c.currentFrame - 1) 0
  let nextFrame := min (c.currentFrame + 1) c.lastFrame
  (List.range c.numJoints.toNat).foldl
    (outputJoint c.qseqRef prevFrame c.currentFrame nextFrame) body

/-! ## Runs of steps -/

/-- A run of steps of one simulation body in kinematics mode with walking enabled.  Every
step has its own kernel: between two steps the controllers rewrite the joint positions the
kinematics pass starts from. -/
def stepsKinematicWalking (kernels : List KinematicsKernel) (simBody : BCSimBody) : BCSimBody :=
  kernels.foldl (fun acc kernel => stepKinematicWalking kernel acc) simBody

/-- The setter `BCSimulatorItem::set2Dmode(on)`. -/
def BCSimulatorItemImpl.set2Dmode (impl : BCSimulatorItemImpl) (enabled : Bool) :
    BCSimulatorItemImpl :=
  { impl with is2Dmode := enabled }

/-- A call on the forced-position interface of the item. -/
inductive ForcedPositionCall where
  | setForcedBodyPosition (bodyItem : Nat) (T : Position)
  | clearForcedBodyPositions
  deriving DecidableEq, Repr

/-- The effect of one call on the forced-position interface. -/
def BCSimulatorItemImpl.call (impl : BCSimulatorItemImpl) : ForcedPositionCall → BCSimulatorItemImpl
  | .setForcedBodyPosition bodyItem T => impl.setForcedBodyPosition bodyItem T
  | .clearForcedBodyPositions => impl.clearForcedBodyPositions

/-- A sequence of calls on the forced-position interface, in order. -/
def BCSimulatorItemImpl.calls (impl : BCSimulatorItemImpl) (calls : List ForcedPositionCall) :
    BCSimulatorItemImpl :=
  calls.foldl (fun acc c => acc.call c) impl

/-- The number of registrations of `doSetForcedBodyPosition` among the post-dynamics
functions of the host. -/
def forcedPositionHooks (impl : BCSimulatorItemImpl) : Nat :=
  impl.self.postDynamicsFunctions.functions.countP (fun e => e.2 == .doSetForcedBodyPosition)

/-- The local `prevFrame` of `HighGainControllerItem::output()`. -/
def HighGainControllerItem.prevFrame (c : HighGainControllerItem) : Int :=
  max (c.currentFrame - 1) 0

/-- The local `nextFrame` of `HighGainControllerItem::output()`. -/
def HighGainControllerItem.nextFrame (c : HighGainControllerItem) : Int :=
  min (c.currentFrame + 1) c.lastFrame

/-- The controller after `k` further calls of `control()`. -/
def controlTimes : Nat → HighGainControllerItem → HighGainControllerItem
  | 0, c => c
  | k + 1, c => controlTimes k c.control.2

/-! ## Sample data -/

/-- A solver with every setting zero. -/
def sampleSolver : BCConstraintForceSolver :=
  { solverID := 0, staticFriction := 0, slipFriction := 0, contactCullingDistance := 0,
    contactCullingDepth := 0, coefficientOfRestitution := 0, gaussSeidelErrorCriterion := 0,
    gaussSeidelMaxNumIterations := 0, contactCorrectionDepth := 0,
    contactCorrectionVelocityRatio := 0, is2Dmode := false, penaltyKpCoef := 0,
    penaltyKvCoef := 0, penaltySizeRatio := 0, collisionDetector := 0 }

/-- A world without bodies. -/
def sampleWorld : World :=
  { constraintForceSolver := sampleSolver, integrationMethod := .EULER_METHOD,
    gravityAcceleration := Vector3.zero, sensorsEnabled := false, timeStep := 0,
    currentTime := 0, bodyInfoArray := [] }

/-- A link that moves: every velocity, acceleration, torque and force is one. -/
def sampleMovingLink : DyLink :=
  { p := ⟨1, 2, 3⟩, R := Matrix3.identity, v := ⟨1, 1, 1⟩, w := ⟨1, 1, 1⟩, vo := ⟨1, 1, 1⟩,
    dv := ⟨1, 1, 1⟩, dw := ⟨1, 1, 1⟩, dvo := ⟨1, 1, 1⟩, q := 1, dq := 1, ddq := 1, u := 1,
    f_ext := ⟨1, 1, 1⟩, tau_ext := ⟨1, 1, 1⟩ }

/-- A body of two moving links, the second one a joint. -/
def sampleBody : DyBody := { links := [sampleMovingLink, sampleMovingLink], jointIdToLink := [1] }

/-- A kinematics kernel that puts every recomputed link at the origin, at rest. -/
def sampleKernel : KinematicsKernel := fun _ _ _ => DyLink.origin.cartesian

/-- A simulator item on a run of the bodies `1` and `2`. -/
def sampleImpl : BCSimulatorItemImpl :=
  { self :=
      { worldTimeStep := 1 / 1000, simBodies := [BCSimBody.new 1 sampleBody, BCSimBody.new 2 sampleBody],
        collisionDetector := 0, preDynamicsFunctions := ⟨[], 0⟩, postDynamicsFunctions := ⟨[], 0⟩ },
    world := sampleWorld, dynamicsMode := .FORWARD_DYNAMICS, integrationMode := .EULER_INTEGRATION,
    solverMode := .SLV_GAUSS_SEIDEL, gravity := ⟨0, 0, -980665 / 100000⟩, staticFriction := 1,
    slipFriction := 1, contactCullingDistance := ⟨1 / 50, "0.02"⟩,
    contactCullingDepth := ⟨1 / 20, "0.05"⟩, errorCriterion := ⟨1 / 1000, "0.001"⟩,
    maxNumIterations := 25, contactCorrectionDepth := ⟨1 / 10000, "0.0001"⟩,
    contactCorrectionVelocityRatio := ⟨30, "30"⟩, epsilon := 0, is2Dmode := false,
    isKinematicWalkingEnabled := false, bodyIndexMap := [], forcedBodyPositionFunctionId := none,
    forcedPositionBody := none, forcedBodyPosition := ⟨Vector3.zero, Matrix3.identity⟩,
    penaltyKpCoef := 1, penaltyKvCoef := 1, penaltySizeRatio := 1 }

/-- A pose requested first. -/
def samplePoseA : Position := ⟨⟨5, 5, 5⟩, Matrix3.identity⟩

/-- A pose requested last. -/
def samplePoseB : Position := ⟨⟨7, 8, 9⟩, Matrix3.identity⟩

/-- A link at rest at the given height. -/
def sampleLinkAt (z : Double) : DyLink := DyLink.origin.setHeight z

/-- A biped: the root link at height one and two feet on the ground. -/
def sampleBiped : DyBody :=
  { links := [sampleLinkAt 1, sampleLinkAt 0, sampleLinkAt 0], jointIdToLink := [1, 2] }

/-- The feet of the biped: the links `1` and `2`. -/
def sampleLegged : LeggedBodyHelper := ⟨[1, 2]⟩

/-- A kernel that recomputes link `2` one unit below the ground and every other link five
units above it. -/
def sampleSwingKernel : KinematicsKernel :=
  fun _ _ i => (sampleLinkAt (if i = 2 then -1 else 5)).cartesian

/-- The biped as a walking body, as the constructor makes it. -/
def sampleWalker : BCSimBody := KinematicWalkBody 1 sampleBiped sampleLegged

/-- The walking state of the biped after construction: the first foot supports. -/
def sampleWalk : KinematicWalk :=
  { legged := sampleLegged, supportFootIndex := 0, traverse := LinkTraverse.find 1 }

/-- The body `1` driven by a high-gain controller. -/
def sampleHighGainBody : BCSimBody :=
  { BCSimBody.new 1 sampleBody with controller := some .HighGainControllerItem }

/-- The body `2` without a controller. -/
def sampleTorqueBody : BCSimBody := BCSimBody.new 2 sampleBody

/-- The sample item with the global mode set to high-gain dynamics. -/
def sampleHighGainImpl : BCSimulatorItemImpl := { sampleImpl with dynamicsMode := .HG_DYNAMICS }

/-- A reference motion of two frames for one joint, at 1000 frames per second. -/
def sampleMotion : MultiValueSeq := { frameRate := 1000, numParts := 1, frames := [[5], [7]] }

/-- A controller for the sample motion, before `start`. -/
def sampleController : HighGainControllerItem :=
  { qseqRef := sampleMotion, currentFrame := 0, lastFrame := 0, numJoints := 0 }

/-- A rate guard for the sample data: the exact comparison against the tolerance. -/
def sampleRateDiffers : Double → Double → Bool :=
  fun frameRate worldTimeStep => decide (|frameRate - 1 / worldTimeStep| > 1 / 1000000)

/-- A target: the sample body in a world with a time step of one millisecond. -/
def sampleTarget : Target := { body := sampleBody, worldTimeStep := 1 / 1000 }

/-- The sample controller after `start` and three further calls of `control()`. -/
def sampleRun : HighGainControllerItem :=
  controlTimes 3 (sampleController.start sampleRateDiffers sampleTarget).2

/-- The sample item configured for 2D mode. -/
def sample2DImpl : BCSimulatorItemImpl := sampleImpl.set2Dmode true

/-- The item after a first run in 2D mode, with 2D mode then switched off in the
configuration. -/
def sampleAfter2DRun : BCSimulatorItemImpl :=
  (sample2DImpl.initializeSimulation sampleKernel sampleKernel
    [sampleHighGainBody, sampleTorqueBody]).2.1.set2Dmode false

/-- A biped whose second foot is the lower one. -/
def sampleSteppingBiped : DyBody :=
  { links := [sampleLinkAt 1, sampleLinkAt 0, sampleLinkAt (-1)], jointIdToLink := [1, 2] }

/-- Requests and a cancellation on the forced-position interface. -/
def sampleCalls : List ForcedPositionCall :=
  [.setForcedBodyPosition 1 samplePoseA, .setForcedBodyPosition 2 samplePoseB,
   .clearForcedBodyPositions, .setForcedBodyPosition 1 samplePoseB]

/-! ## Kinematics passes -/

theorem getElem?_mapLinksFrom (f : Nat → DyLink → DyLink) (start : Nat) (links : List DyLink)
    (i : Nat) : (mapLinksFrom f start links)[i]? = (links[i]?).map (f (start + i)) := by
  induction links generalizing start i with
  | nil => simp [mapLinksFrom]
  | cons l ls ih =>
    cases i with
    | zero => simp [mapLinksFrom]
    | succ j =>
      have h : start + 1 + j = start + (j + 1) := by omega
      simp only [mapLinksFrom, List.getElem?_cons_succ, ih, h]

theorem length_mapLinksFrom (f : Nat → DyLink → DyLink) (start : Nat) (links : List DyLink) :
    (mapLinksFrom f start links).length = links.length := by
  induction links generalizing start with
  | nil => rfl
  | cons l ls ih => simp [mapLinksFrom, ih]

theorem getElem?_calcForwardKinematicsFrom (kernel : KinematicsKernel) (root : Nat) (b : DyBody)
    (i : Nat) :
    (calcForwardKinematicsFrom kernel root b).links[i]? =
      (b.links[i]?).map
        (fun l => if i = root then l else l.setCartesian (kernel root b.links i)) := by
  simp [calcForwardKinematicsFrom, getElem?_mapLinksFrom]

theorem calcForwardKinematicsFrom_root (kernel : KinematicsKernel) (root : Nat) (b : DyBody) :
    (calcForwardKinematicsFrom kernel root b).links[root]? = b.links[root]? := by
  rw [getElem?_calcForwardKinematicsFrom]
  cases b.links[root]? <;> simp

theorem length_calcForwardKinematicsFrom (kernel : KinematicsKernel) (root : Nat) (b : DyBody) :
    (calcForwardKinematicsFrom kernel root b).links.length = b.links.length := by
  simp [calcForwardKinematicsFrom, length_mapLinksFrom]

theorem jointIdToLink_calcForwardKinematicsFrom (kernel : KinematicsKernel) (root : Nat)
    (b : DyBody) : (calcForwardKinematicsFrom kernel root b).jointIdToLink = b.jointIdToLink := rfl

/-! ## Forced body position: the last request wins -/

theorem findSimulationBody_identity (self : SimulatorItem) (bodyItem : Nat) (simBody : BCSimBody)
    (h : self.findSimulationBody bodyItem = some simBody) : simBody.identity = bodyItem := by
  have h1 := List.find?_some h
  simpa using h1

theorem setForcedBodyPosition_simBodies (impl : BCSimulatorItemImpl) (bodyItem : Nat)
    (T : Position) :
    (impl.setForcedBodyPosition bodyItem T).self.simBodies = impl.self.simBodies := by
  unfold BCSimulatorItemImpl.setForcedBodyPosition
  cases impl.self.findSimulationBody bodyItem with
  | none => rfl
  | some simBody =>
    simp only
    split <;> rfl

theorem setForcedBodyPosition_slot (impl : BCSimulatorItemImpl) (bodyItem : Nat) (T : Position)
    (h : (impl.self.findSimulationBody bodyItem).isSome) :
    (impl.setForcedBodyPosition bodyItem T).forcedPositionBody = some bodyItem ∧
      (impl.setForcedBodyPosition bodyItem T).forcedBodyPosition = T := by
  unfold BCSimulatorItemImpl.setForcedBodyPosition
  cases hfind : impl.self.findSimulationBody bodyItem with
  | none => simp [hfind] at h
  | some simBody =>
    have hid := findSimulationBody_identity _ _ _ hfind
    simp only
    split <;> simp [hid]

theorem setForcedBodyPositions_simBodies (impl : BCSimulatorItemImpl)
    (calls : List (Nat × Position)) :
    (setForcedBodyPositions impl calls).self.simBodies = impl.self.simBodies := by
  induction calls generalizing impl with
  | nil => rfl
  | cons c cs ih =>
    simp only [setForcedBodyPositions, List.foldl_cons] at ih ⊢
    rw [ih, setForcedBodyPosition_simBodies]

theorem setForcedBodyPositions_append (impl : BCSimulatorItemImpl)
    (calls : List (Nat × Position)) (last : Nat × Position) :
    setForcedBodyPositions impl (calls ++ [last]) =
      (setForcedBodyPositions impl calls).setForcedBodyPosition last.1 last.2 := by
  simp [setForcedBodyPositions, List.foldl_append]

theorem getElem?_modifyLink_zero (b : DyBody) (f : DyLink → DyLink) :
    (b.modifyLink 0 f).rootLink = b.rootLink.map f := by
  simp [DyBody.modifyLink, DyBody.rootLink]

/-- C1: after any non-empty sequence of `setForcedBodyPosition` calls that name bodies of
the run (`calls` followed by `last`), `doSetForcedBodyPosition` leaves every body other
than the one named last exactly as it was, and gives the root link of the body named last
the pose of the last call with `v`, `w` and `vo` zero. -/
theorem forced_position_last_request_wins (kernel : KinematicsKernel) (impl : BCSimulatorItemImpl)
    (calls : List (Nat × Position)) (last : Nat × Position)
    (hpresent : ∀ c ∈ calls ++ [last], (impl.self.findSimulationBody c.1).isSome) :
    ∀ (i : Nat) (simBody : BCSimBody), impl.self.simBodies[i]? = some simBody →
      ∃ simBody' : BCSimBody,
        ((setForcedBodyPositions impl (calls ++ [last])).doSetForcedBodyPosition
          kernel).self.simBodies[i]? = some simBody' ∧
        (simBody.identity ≠ last.1 → simBody' = simBody) ∧
        (simBody.identity = last.1 →
          simBody'.identity = last.1 ∧
          ∀ rootLink : DyLink, simBody.body.rootLink = some rootLink →
            ∃ rootLink' : DyLink, simBody'.body.rootLink = some rootLink' ∧
              rootLink'.position = last.2 ∧ rootLink'.v = Vector3.zero ∧
              rootLink'.w = Vector3.zero ∧ rootLink'.vo = Vector3.zero) := by
  intro i simBody hi
  have hlast : ((setForcedBodyPositions impl calls).self.findSimulationBody last.1).isSome := by
    have h := hpresent last (by simp)
    simpa [SimulatorItem.findSimulationBody, setForcedBodyPositions_simBodies] using h
  obtain ⟨hbody, hpose⟩ := setForcedBodyPosition_slot _ last.1 last.2 hlast
  rw [← setForcedBodyPositions_append] at hbody hpose
  have hsim := setForcedBodyPositions_simBodies impl (calls ++ [last])
  unfold BCSimulatorItemImpl.doSetForcedBodyPosition
  rw [hbody]
  simp only [hsim, hpose, List.getElem?_map, hi, Option.map_some']
  by_cases hid : simBody.identity = last.1
  · refine ⟨_, rfl, ?_, ?_⟩
    · intro hne; exact absurd hid hne
    · intro _
      simp only [hid, if_true]
      refine ⟨trivial, ?_⟩
      intro rootLink hroot
      refine ⟨forceRootLink last.2 rootLink, ?_, rfl, rfl, rfl, rfl⟩
      simp only [DyBody.rootLink, DyBody.calcSpatialForwardKinematics,
        calcForwardKinematicsFrom_root]
      have := getElem?_modifyLink_zero simBody.body (forceRootLink last.2)
      simp only [DyBody.rootLink] at this hroot
      rw [this, hroot]; rfl
  · refine ⟨_, rfl, ?_, ?_⟩
    · intro _; simp [hid]
    · intro h; exact absurd h hid

theorem forced_position_last_request_wins_witness :
    (∀ c ∈ [(1, samplePoseA)] ++ [(2, samplePoseB)],
        (sampleImpl.self.findSimulationBody c.1).isSome) ∧
      ∃ simBody' : BCSimBody,
        ((setForcedBodyPositions sampleImpl ([(1, samplePoseA)] ++ [(2, samplePoseB)])
          ).doSetForcedBodyPosition sampleKernel).self.simBodies[1]? = some simBody' ∧
        ((BCSimBody.new 2 sampleBody).identity ≠ 2 → simBody' = BCSimBody.new 2 sampleBody) ∧
        ((BCSimBody.new 2 sampleBody).identity = 2 →
          simBody'.identity = 2 ∧
          ∀ rootLink : DyLink, (BCSimBody.new 2 sampleBody).body.rootLink = some rootLink →
            ∃ rootLink' : DyLink, simBody'.body.rootLink = some rootLink' ∧
              rootLink'.position = samplePoseB ∧ rootLink'.v = Vector3.zero ∧
              rootLink'.w = Vector3.zero ∧ rootLink'.vo = Vector3.zero) :=
  ⟨by decide,
    forced_position_last_request_wins sampleKernel sampleImpl [(1, samplePoseA)] (2, samplePoseB)
      (by decide) 1 (BCSimBody.new 2 sampleBody) rfl⟩

/-! ## The support-foot scan -/

theorem height_of_getElem? (b : DyBody) (link : Nat) (l : DyLink) (h : b.links[link]? = some l) :
    b.height link = l.p.z := by
  simp [DyBody.height, List.getD_eq_getElem?_getD, h]

theorem scan_invariant (body : DyBody) (legged : LeggedBodyHelper) (s k : Nat) :
    let step : Nat × Nat → Nat → Nat × Nat := fun next i =>
      if i ≠ s then
        if body.height (legged.footLink i) < body.height next.2 then (i, legged.footLink i)
        else next
      else next
    let r := (List.range k).foldl step (s, legged.footLink s)
    r.2 = legged.footLink r.1 ∧
    (r.1 = s ∨ (r.1 < k ∧ body.height (legged.footLink r.1) < body.height (legged.footLink s))) ∧
    (∀ i, i < k → i ≠ s → body.height (legged.footLink r.1) ≤ body.height (legged.footLink i)) ∧
    body.height (legged.footLink r.1) ≤ body.height (legged.footLink s) ∧
    (r.1 ≠ s → ∀ i, i < k → body.height (legged.footLink i) = body.height (legged.footLink r.1) →
      r.1 ≤ i) := by
  intro step
  induction k with
  | zero => simp
  | succ k ih =>
    simp only [List.range_succ, List.foldl_append, List.foldl_cons, List.foldl_nil]
    generalize (List.range k).foldl step (s, legged.footLink s) = r at ih
    obtain ⟨hlink, hidx, hmin, hle, hfirst⟩ := ih
    by_cases hks : k = s
    · have hstep : step r k = r := by simp [step, hks]
      rw [hstep]
      refine ⟨hlink, ?_, ?_, hle, ?_⟩
      · rcases hidx with h | ⟨h1, h2⟩
        · exact Or.inl h
        · exact Or.inr ⟨by omega, h2⟩
      · intro i hi his
        exact hmin i (by omega) his
      · intro hne i hi heq
        by_cases hik : i = k
        · rcases hidx with h | ⟨h1, _⟩
          · exact absurd h hne
          · omega
        · exact hfirst hne i (by omega) heq
    · by_cases hlt : body.height (legged.footLink k) < body.height r.2
      · have hstep : step r k = (k, legged.footLink k) := by simp [step, hks, hlt]
        rw [hstep]
        rw [hlink] at hlt
        refine ⟨rfl, Or.inr ⟨by simp, lt_of_lt_of_le hlt hle⟩, ?_, ?_, ?_⟩
        · intro i hi his
          by_cases hik : i = k
          · rw [hik]
          · exact le_trans (le_of_lt hlt) (hmin i (by omega) his)
        · exact le_trans (le_of_lt hlt) hle
        · intro _ i hi heq
          by_cases hik : i = k
          · simp [hik]
          · exfalso
            simp only at heq
            by_cases his : i = s
            · rw [his] at heq
              rw [heq] at hle
              exact absurd (lt_of_lt_of_le hlt hle) (lt_irrefl _)
            · have := hmin i (by omega) his
              rw [heq] at this
              exact absurd (lt_of_lt_of_le hlt this) (lt_irrefl _)
      · have hstep : step r k = r := by simp [step, hks, hlt]
        rw [hstep]
        rw [hlink] at hlt
        refine ⟨hlink, ?_, ?_, hle, ?_⟩
        · rcases hidx with h | ⟨h1, h2⟩
          · exact Or.inl h
          · exact Or.inr ⟨by omega, h2⟩
        · intro i hi his
          by_cases hik : i = k
          · rw [hik]; exact not_lt.mp hlt
          · exact hmin i (by omega) his
        · intro hne i hi heq
          by_cases hik : i = k
          · rcases hidx with h | ⟨h1, _⟩
            · exact absurd h hne
            · omega
          · exact hfirst hne i (by omega) heq

theorem height_calcForwardKinematicsFrom_root (kernel : KinematicsKernel) (root : Nat)
    (b : DyBody) : (calcForwardKinematicsFrom kernel root b).height root = b.height root := by
  simp [DyBody.height, List.getD_eq_getElem?_getD, calcForwardKinematicsFrom_root]

theorem height_modifyLink_setHeight (b : DyBody) (link : Nat) (z : Double)
    (h : link < b.links.length) : (b.modifyLink link (fun l => l.setHeight z)).height link = z := by
  simp [DyBody.height, DyBody.modifyLink, List.getD_eq_getElem?_getD, List.getElem?_modify_eq,
    List.getElem?_eq_getElem h, DyLink.setHeight]

theorem footLink_lt_of_mem (legged : LeggedBodyHelper) (bound i : Nat)
    (hfeet : ∀ f ∈ legged.footLinks, f < bound) (hi : i < legged.numFeet) :
    legged.footLink i < bound := by
  have hi' : i < legged.footLinks.length := hi
  have : legged.footLink i = legged.footLinks[i] := by
    simp [LeggedBodyHelper.footLink, List.getD_eq_getElem?_getD, List.getElem?_eq_getElem hi']
  rw [this]
  exact hfeet _ (List.getElem_mem hi')

theorem scan_spec (body : DyBody) (legged : LeggedBodyHelper) (s : Nat) :
    (scanNextSupportFoot body legged s).2 =
        legged.footLink (scanNextSupportFoot body legged s).1 ∧
    ((scanNextSupportFoot body legged s).1 = s ∨
      ((scanNextSupportFoot body legged s).1 < legged.numFeet ∧
        body.height (legged.footLink (scanNextSupportFoot body legged s).1) <
          body.height (legged.footLink s))) ∧
    (∀ i, i < legged.numFeet → i ≠ s →
      body.height (legged.footLink (scanNextSupportFoot body legged s).1) ≤
        body.height (legged.footLink i)) ∧
    body.height (legged.footLink (scanNextSupportFoot body legged s).1) ≤
      body.height (legged.footLink s) ∧
    ((scanNextSupportFoot body legged s).1 ≠ s → ∀ i, i < legged.numFeet →
      body.height (legged.footLink i) =
        body.height (legged.footLink (scanNextSupportFoot body legged s).1) →
      (scanNextSupportFoot body legged s).1 ≤ i) :=
  scan_invariant body legged s legged.numFeet

theorem stepWalkBody_cases (kernel : KinematicsKernel) (body : DyBody) (walk : KinematicWalk) :
    let b1 := decisionBody kernel body walk
    let s := walk.supportFootIndex
    let r := (scanNextSupportFoot b1 walk.legged s).1
    (r = s ∧ stepWalkBody kernel body walk = (b1, walk)) ∨
    (r ≠ s ∧ r < walk.legged.numFeet ∧
      stepWalkBody kernel body walk =
        (calcForwardKinematicsFrom kernel (walk.legged.footLink r)
          (b1.modifyLink (walk.legged.footLink r)
            (fun l => l.setHeight (b1.height (walk.legged.footLink s)))),
         { walk with supportFootIndex := r, traverse := LinkTraverse.find (walk.legged.footLink r) })) := by
  intro b1 s r
  obtain ⟨hlink, hidx, -, -, -⟩ := scan_spec b1 walk.legged s
  have hlink' : (scanNextSupportFoot b1 walk.legged s).2 = walk.legged.footLink r := hlink
  have hidx' : r = s ∨ (r < walk.legged.numFeet ∧
      b1.height (walk.legged.footLink r) < b1.height (walk.legged.footLink s)) := hidx
  by_cases hrs : r = s
  · left
    refine ⟨hrs, ?_⟩
    have hsame : (scanNextSupportFoot b1 walk.legged s).2 = walk.legged.footLink s := by
      rw [hlink', hrs]
    simp only [stepWalkBody]
    rw [if_neg (by simpa [b1, s] using hsame)]
  · right
    rcases hidx' with h | ⟨hlt, hheight⟩
    · exact absurd h hrs
    · have hdiff : (scanNextSupportFoot b1 walk.legged s).2 ≠ walk.legged.footLink s := by
        rw [hlink']
        intro heq
        rw [heq] at hheight
        exact lt_irrefl _ hheight
      refine ⟨hrs, hlt, ?_⟩
      simp only [stepWalkBody]
      rw [if_pos (by simpa [b1, s] using hdiff)]
      simp only [LinkTraverse.find]
      rw [show (scanNextSupportFoot (decisionBody kernel body walk) walk.legged
        walk.supportFootIndex).2 = walk.legged.footLink r from hlink']

theorem stepSimulation_walking (calcNextState : List BCSimBody → List BCSimBody)
    (kernel : KinematicsKernel) (bodies : List BCSimBody) :
    (stepSimulation .KINEMATICS true calcNextState kernel bodies).2 =
      bodies.map (stepKinematicWalking kernel) := by
  simp [stepSimulation]

theorem stepSimulation_walkBody (calcNextState : List BCSimBody → List BCSimBody)
    (kernel : KinematicsKernel) (bodies : List BCSimBody) (i : Nat) (simBody : BCSimBody)
    (walk : KinematicWalk) (hi : bodies[i]? = some simBody) (hw : simBody.walk = some walk) :
    (stepSimulation .KINEMATICS true calcNextState kernel bodies).2[i]? =
      some { simBody with body := (stepWalkBody kernel simBody.body walk).1,
                          walk := some (stepWalkBody kernel simBody.body walk).2 } := by
  rw [stepSimulation_walking]
  simp [List.getElem?_map, hi, stepKinematicWalking, hw]

/-! ## Kinematic walking: the claims -/

/-- C2: in a step of `stepSimulation` (kinematics mode, walking enabled) in which the
support foot of a walking body changes, the height of the new support foot after the step
equals the height the outgoing support foot had when the switch was decided; when the
traversal is rooted at the support foot, that is also its height before the step. -/
theorem support_switch_keeps_height (calcNextState : List BCSimBody → List BCSimBody)
    (kernel : KinematicsKernel) (bodies : List BCSimBody) (i : Nat) (simBody : BCSimBody)
    (walk : KinematicWalk) (hi : bodies[i]? = some simBody) (hw : simBody.walk = some walk)
    (hfeet : ∀ f ∈ walk.legged.footLinks, f < simBody.body.links.length) :
    ∃ (simBody' : BCSimBody) (walk' : KinematicWalk),
      (stepSimulation .KINEMATICS true calcNextState kernel bodies).2[i]? = some simBody' ∧
      simBody'.walk = some walk' ∧
      (walk'.supportFootIndex ≠ walk.supportFootIndex →
        simBody'.body.height (walk.legged.footLink walk'.supportFootIndex) =
          (decisionBody kernel simBody.body walk).height
            (walk.legged.footLink walk.supportFootIndex) ∧
        (walk.traverse.root = walk.legged.footLink walk.supportFootIndex →
          simBody'.body.height (walk.legged.footLink walk'.supportFootIndex) =
            simBody.body.height (walk.legged.footLink walk.supportFootIndex))) := by
  refine ⟨_, _, stepSimulation_walkBody calcNextState kernel bodies i simBody walk hi hw, rfl, ?_⟩
  rcases stepWalkBody_cases kernel simBody.body walk with ⟨hr, heq⟩ | ⟨hr, hlt, heq⟩
  · intro hne
    rw [heq] at hne
    exact absurd rfl hne
  · intro _
    rw [heq]
    simp only
    have hlen : walk.legged.footLink
        (scanNextSupportFoot (decisionBody kernel simBody.body walk) walk.legged
          walk.supportFootIndex).1 < (decisionBody kernel simBody.body walk).links.length := by
      rw [decisionBody, length_calcForwardKinematicsFrom]
      exact footLink_lt_of_mem _ _ _ hfeet hlt
    have hsnap := height_modifyLink_setHeight (decisionBody kernel simBody.body walk) _
      ((decisionBody kernel simBody.body walk).height (walk.legged.footLink walk.supportFootIndex))
      hlen
    rw [height_calcForwardKinematicsFrom_root, hsnap]
    refine ⟨rfl, ?_⟩
    intro hroot
    rw [decisionBody, hroot, height_calcForwardKinematicsFrom_root]

/-- C4: a step of `stepSimulation` on a walking body changes the support foot exactly when
another foot is strictly lower than the support foot in the heights of the first kinematics
pass; the new support foot then has the minimum height of all feet and is the first index
with that height; otherwise `supportFootIndex` stays. -/
theorem support_foot_switch_rule (calcNextState : List BCSimBody → List BCSimBody)
    (kernel : KinematicsKernel) (bodies : List BCSimBody) (i : Nat) (simBody : BCSimBody)
    (walk : KinematicWalk) (hi : bodies[i]? = some simBody) (hw : simBody.walk = some walk) :
    ∃ (simBody' : BCSimBody) (walk' : KinematicWalk),
      (stepSimulation .KINEMATICS true calcNextState kernel bodies).2[i]? = some simBody' ∧
      simBody'.walk = some walk' ∧
      (walk'.supportFootIndex ≠ walk.supportFootIndex ↔
        ∃ j, j < walk.legged.numFeet ∧ j ≠ walk.supportFootIndex ∧
          (decisionBody kernel simBody.body walk).height (walk.legged.footLink j) <
            (decisionBody kernel simBody.body walk).height
              (walk.legged.footLink walk.supportFootIndex)) ∧
      (walk'.supportFootIndex ≠ walk.supportFootIndex →
        walk'.supportFootIndex < walk.legged.numFeet ∧
        (∀ j, j < walk.legged.numFeet →
          (decisionBody kernel simBody.body walk).height
              (walk.legged.footLink walk'.supportFootIndex) ≤
            (decisionBody kernel simBody.body walk).height (walk.legged.footLink j)) ∧
        (∀ j, j < walk.legged.numFeet →
          (decisionBody kernel simBody.body walk).height (walk.legged.footLink j) =
            (decisionBody kernel simBody.body walk).height
              (walk.legged.footLink walk'.supportFootIndex) →
          walk'.supportFootIndex ≤ j)) ∧
      ((∀ j, j < walk.legged.numFeet → j ≠ walk.supportFootIndex →
          ¬ (decisionBody kernel simBody.body walk).height (walk.legged.footLink j) <
            (decisionBody kernel simBody.body walk).height
              (walk.legged.footLink walk.supportFootIndex)) →
        walk'.supportFootIndex = walk.supportFootIndex) := by
  refine ⟨_, _, stepSimulation_walkBody calcNextState kernel bodies i simBody walk hi hw, rfl, ?_⟩
  obtain ⟨-, hidx, hmin, hle, hfirst⟩ :=
    scan_spec (decisionBody kernel simBody.body walk) walk.legged walk.supportFootIndex
  rcases stepWalkBody_cases kernel simBody.body walk with ⟨hr, heq⟩ | ⟨hr, hlt, heq⟩
  · rw [heq]
    simp only [ne_eq, not_true_eq_false, false_iff, not_exists, not_and, false_implies,
      implies_true, and_true, true_and]
    intro j hj hjs hlow
    have := hmin j hj hjs
    rw [show (scanNextSupportFoot (decisionBody kernel simBody.body walk) walk.legged
      walk.supportFootIndex).1 = walk.supportFootIndex from hr] at this
    exact absurd (lt_of_lt_of_le hlow this) (lt_irrefl _)
  · rw [heq]
    simp only
    have hlow : (decisionBody kernel simBody.body walk).height
        (walk.legged.footLink (scanNextSupportFoot (decisionBody kernel simBody.body walk)
          walk.legged walk.supportFootIndex).1) <
        (decisionBody kernel simBody.body walk).height
          (walk.legged.footLink walk.supportFootIndex) := by
      rcases hidx with h | ⟨_, h⟩
      · exact absurd h hr
      · exact h
    refine ⟨⟨fun _ => ⟨_, hlt, hr, hlow⟩, fun _ => hr⟩, fun _ => ⟨hlt, ?_, ?_⟩, ?_⟩
    · intro j hj
      by_cases hjs : j = walk.supportFootIndex
      · rw [hjs]; exact hle
      · exact hmin j hj hjs
    · intro j hj heq'
      exact hfirst hr j hj heq'
    · intro hnone
      exact absurd hlow (hnone _ hlt hr)

theorem support_switch_keeps_height_witness :
    ([sampleWalker][0]? = some sampleWalker ∧ sampleWalker.walk = some sampleWalk ∧
      ∀ f ∈ sampleWalk.legged.footLinks, f < sampleWalker.body.links.length) ∧
    ∃ (simBody' : BCSimBody) (walk' : KinematicWalk),
      (stepSimulation .KINEMATICS true id sampleSwingKernel [sampleWalker]).2[0]? =
        some simBody' ∧
      simBody'.walk = some walk' ∧
      (walk'.supportFootIndex ≠ sampleWalk.supportFootIndex →
        simBody'.body.height (sampleWalk.legged.footLink walk'.supportFootIndex) =
          (decisionBody sampleSwingKernel sampleWalker.body sampleWalk).height
            (sampleWalk.legged.footLink sampleWalk.supportFootIndex) ∧
        (sampleWalk.traverse.root = sampleWalk.legged.footLink sampleWalk.supportFootIndex →
          simBody'.body.height (sampleWalk.legged.footLink walk'.supportFootIndex) =
            sampleWalker.body.height (sampleWalk.legged.footLink sampleWalk.supportFootIndex))) :=
  ⟨⟨rfl, by decide, by decide⟩,
    support_switch_keeps_height id sampleSwingKernel [sampleWalker] 0 sampleWalker sampleWalk rfl
      (by decide) (by decide)⟩

theorem support_foot_switch_rule_witness :
    ([sampleWalker][0]? = some sampleWalker ∧ sampleWalker.walk = some sampleWalk) ∧
    ∃ (simBody' : BCSimBody) (walk' : KinematicWalk),
      (stepSimulation .KINEMATICS true id sampleSwingKernel [sampleWalker]).2[0]? =
        some simBody' ∧
      simBody'.walk = some walk' ∧
      (walk'.supportFootIndex ≠ sampleWalk.supportFootIndex ↔
        ∃ j, j < sampleWalk.legged.numFeet ∧ j ≠ sampleWalk.supportFootIndex ∧
          (decisionBody sampleSwingKernel sampleWalker.body sampleWalk).height
              (sampleWalk.legged.footLink j) <
            (decisionBody sampleSwingKernel sampleWalker.body sampleWalk).height
              (sampleWalk.legged.footLink sampleWalk.supportFootIndex)) ∧
      (walk'.supportFootIndex ≠ sampleWalk.supportFootIndex →
        walk'.supportFootIndex < sampleWalk.legged.numFeet ∧
        (∀ j, j < sampleWalk.legged.numFeet →
          (decisionBody sampleSwingKernel sampleWalker.body sampleWalk).height
              (sampleWalk.legged.footLink walk'.supportFootIndex) ≤
            (decisionBody sampleSwingKernel sampleWalker.body sampleWalk).height
              (sampleWalk.legged.footLink j)) ∧
        (∀ j, j < sampleWalk.legged.numFeet →
          (decisionBody sampleSwingKernel sampleWalker.body sampleWalk).height
              (sampleWalk.legged.footLink j) =
            (decisionBody sampleSwingKernel sampleWalker.body sampleWalk).height
              (sampleWalk.legged.footLink walk'.supportFootIndex) →
          walk'.supportFootIndex ≤ j)) ∧
      ((∀ j, j < sampleWalk.legged.numFeet → j ≠ sampleWalk.supportFootIndex →
          ¬ (decisionBody sampleSwingKernel sampleWalker.body sampleWalk).height
              (sampleWalk.legged.footLink j) <
            (decisionBody sampleSwingKernel sampleWalker.body sampleWalk).height
              (sampleWalk.legged.footLink sampleWalk.supportFootIndex)) →
        walk'.supportFootIndex = sampleWalk.supportFootIndex) :=
  ⟨⟨rfl, by decide⟩,
    support_foot_switch_rule id sampleSwingKernel [sampleWalker] 0 sampleWalker sampleWalk rfl
      (by decide)⟩

theorem initialSupportFootIndex_lt (body : DyBody) (legged : LeggedBodyHelper)
    (hfeet : 1 ≤ legged.numFeet) : initialSupportFootIndex body legged < legged.numFeet := by
  unfold initialSupportFootIndex
  have key : ∀ (is : List Nat) (start : Nat), start < legged.numFeet →
      (∀ i ∈ is, i < legged.numFeet) →
      is.foldl (fun supportFootIndex i =>
        if body.height (legged.footLink i) < body.height (legged.footLink supportFootIndex)
        then i else supportFootIndex) start < legged.numFeet := by
    intro is
    induction is with
    | nil => intro start hs _; simpa using hs
    | cons a as ih =>
      intro start hs hall
      simp only [List.foldl_cons]
      apply ih
      · split
        · exact hall a (by simp)
        · exact hs
      · intro i hi
        exact hall i (by simp [hi])
  apply key _ 0 (by omega)
  intro i hi
  rw [List.mem_range'_1] at hi
  omega

theorem stepKinematicWalking_walk (kernel : KinematicsKernel) (simBody : BCSimBody)
    (walk : KinematicWalk) (hw : simBody.walk = some walk)
    (hvalid : walk.supportFootIndex < walk.legged.numFeet) :
    ∃ walk' : KinematicWalk, (stepKinematicWalking kernel simBody).walk = some walk' ∧
      walk'.legged = walk.legged ∧ walk'.supportFootIndex < walk.legged.numFeet ∧
      walk'.supportFootIndex =
        (scanNextSupportFoot (decisionBody kernel simBody.body walk) walk.legged
          walk.supportFootIndex).1 := by
  refine ⟨(stepWalkBody kernel simBody.body walk).2, by simp [stepKinematicWalking, hw], ?_⟩
  rcases stepWalkBody_cases kernel simBody.body walk with ⟨hr, heq⟩ | ⟨hr, hlt, heq⟩
  · rw [heq]
    exact ⟨rfl, hvalid, hr.symm⟩
  · rw [heq]
    exact ⟨rfl, hlt, rfl⟩

theorem stepsKinematicWalking_walk (kernels : List KinematicsKernel) (simBody : BCSimBody)
    (walk : KinematicWalk) (hw : simBody.walk = some walk)
    (hvalid : walk.supportFootIndex < walk.legged.numFeet) :
    ∃ walk' : KinematicWalk, (stepsKinematicWalking kernels simBody).walk = some walk' ∧
      walk'.legged = walk.legged ∧ walk'.supportFootIndex < walk.legged.numFeet := by
  induction kernels generalizing simBody walk with
  | nil => exact ⟨walk, hw, rfl, hvalid⟩
  | cons k ks ih =>
    obtain ⟨w1, hw1, hl1, hv1, -⟩ := stepKinematicWalking_walk k simBody walk hw hvalid
    obtain ⟨w2, hw2, hl2, hv2⟩ := ih (stepKinematicWalking k simBody) w1 hw1 (by rw [hl1]; exact hv1)
    refine ⟨w2, ?_, by rw [hl2, hl1], by rw [hl1] at hv2; exact hv2⟩
    simpa [stepsKinematicWalking] using hw2

theorem stepsKinematicWalking_append (kernels : List KinematicsKernel) (kernel : KinematicsKernel)
    (simBody : BCSimBody) :
    stepsKinematicWalking (kernels ++ [kernel]) simBody =
      stepKinematicWalking kernel (stepsKinematicWalking kernels simBody) := by
  simp [stepsKinematicWalking, List.foldl_append]

theorem stepKinematicWalking_length (kernel : KinematicsKernel) (simBody : BCSimBody) :
    (stepKinematicWalking kernel simBody).body.links.length = simBody.body.links.length := by
  unfold stepKinematicWalking
  cases hw : simBody.walk with
  | none => simp [DyBody.calcForwardKinematics, length_calcForwardKinematicsFrom]
  | some walk =>
    simp only
    rcases stepWalkBody_cases kernel simBody.body walk with ⟨-, heq⟩ | ⟨-, -, heq⟩
    · rw [heq]
      simp [decisionBody, length_calcForwardKinematicsFrom]
    · rw [heq]
      simp [decisionBody, length_calcForwardKinematicsFrom, DyBody.modifyLink]

theorem stepsKinematicWalking_length (kernels : List KinematicsKernel) (simBody : BCSimBody) :
    (stepsKinematicWalking kernels simBody).body.links.length = simBody.body.links.length := by
  induction kernels generalizing simBody with
  | nil => rfl
  | cons k ks ih =>
    simp only [stepsKinematicWalking, List.foldl_cons] at ih ⊢
    rw [ih, stepKinematicWalking_length]

theorem stepKinematicWalking_stored_height (kernel : KinematicsKernel) (simBody : BCSimBody)
    (walk : KinematicWalk) (hw : simBody.walk = some walk) :
    ∃ walk' : KinematicWalk, (stepKinematicWalking kernel simBody).walk = some walk' ∧
      (walk'.supportFootIndex = walk.supportFootIndex →
        (stepKinematicWalking kernel simBody).body = decisionBody kernel simBody.body walk) ∧
      (walk'.supportFootIndex ≠ walk.supportFootIndex →
        (decisionBody kernel simBody.body walk).height
            (walk.legged.footLink walk'.supportFootIndex) <
          (decisionBody kernel simBody.body walk).height
            (walk.legged.footLink walk.supportFootIndex) ∧
        ((∀ f ∈ walk.legged.footLinks, f < simBody.body.links.length) →
          (stepKinematicWalking kernel simBody).body.height
              (walk.legged.footLink walk'.supportFootIndex) =
            (decisionBody kernel simBody.body walk).height
              (walk.legged.footLink walk.supportFootIndex))) := by
  refine ⟨(stepWalkBody kernel simBody.body walk).2, by simp [stepKinematicWalking, hw], ?_⟩
  have hbody : (stepKinematicWalking kernel simBody).body =
      (stepWalkBody kernel simBody.body walk).1 := by
    simp [stepKinematicWalking, hw]
  rw [hbody]
  obtain ⟨-, hidx, -, -, -⟩ :=
    scan_spec (decisionBody kernel simBody.body walk) walk.legged walk.supportFootIndex
  rcases stepWalkBody_cases kernel simBody.body walk with ⟨hr, heq⟩ | ⟨hr, hlt, heq⟩
  · rw [heq]
    exact ⟨fun _ => rfl, fun hne => absurd rfl hne⟩
  · rw [heq]
    simp only
    refine ⟨fun h => absurd h hr, fun _ => ⟨?_, ?_⟩⟩
    · rcases hidx with h | ⟨_, h⟩
      · exact absurd h hr
      · exact h
    · intro hfeet
      have hlen : walk.legged.footLink
          (scanNextSupportFoot (decisionBody kernel simBody.body walk) walk.legged
            walk.supportFootIndex).1 < (decisionBody kernel simBody.body walk).links.length := by
        rw [decisionBody, length_calcForwardKinematicsFrom]
        exact footLink_lt_of_mem _ _ _ hfeet hlt
      rw [height_calcForwardKinematicsFrom_root]
      exact height_modifyLink_setHeight _ _ _ hlen

/-- C3, as the code has it: for a walking body whose walking state is the one the
constructor made from at least one foot, after every step of every run (the steps
`kernels`, then the step `kernel`) `supportFootIndex` is a valid foot index and the foot it
names has the minimum of the foot heights computed for that step's switch decision.  After
a step that does not switch, the height recorded for the support foot is that minimum;
after a step that switches, the decision height of the new support foot is strictly below
the outgoing foot's, and the height recorded for the new support foot is the outgoing
foot's decision height (the feet being links of the body). -/
theorem support_foot_height_after_step (identity : Nat) (body0 : DyBody)
    (legged : LeggedBodyHelper) (start : BCSimBody) (kernels : List KinematicsKernel)
    (kernel : KinematicsKernel) (hfeet : 1 ≤ legged.numFeet)
    (hstart : start.walk = (KinematicWalkBody identity body0 legged).walk) :
    ∃ (walk walk' : KinematicWalk),
      (stepsKinematicWalking kernels start).walk = some walk ∧
      (stepsKinematicWalking (kernels ++ [kernel]) start).walk = some walk' ∧
      walk.legged = legged ∧
      walk'.legged = legged ∧
      walk'.supportFootIndex < legged.numFeet ∧
      (∀ j, j < legged.numFeet →
        (decisionBody kernel (stepsKinematicWalking kernels start).body walk).height
            (legged.footLink walk'.supportFootIndex) ≤
          (decisionBody kernel (stepsKinematicWalking kernels start).body walk).height
            (legged.footLink j)) ∧
      (walk'.supportFootIndex = walk.supportFootIndex →
        (stepsKinematicWalking (kernels ++ [kernel]) start).body.height
            (legged.footLink walk'.supportFootIndex) =
          (decisionBody kernel (stepsKinematicWalking kernels start).body walk).height
            (legged.footLink walk'.supportFootIndex)) ∧
      (walk'.supportFootIndex ≠ walk.supportFootIndex →
        (decisionBody kernel (stepsKinematicWalking kernels start).body walk).height
            (legged.footLink walk'.supportFootIndex) <
          (decisionBody kernel (stepsKinematicWalking kernels start).body walk).height
            (legged.footLink walk.supportFootIndex) ∧
        ((∀ f ∈ legged.footLinks, f < start.body.links.length) →
          (stepsKinematicWalking (kernels ++ [kernel]) start).body.height
              (legged.footLink walk'.supportFootIndex) =
            (decisionBody kernel (stepsKinematicWalking kernels start).body walk).height
              (legged.footLink walk.supportFootIndex))) := by
  have hinit := initialSupportFootIndex_lt body0 legged hfeet
  obtain ⟨walk, hwalk, hl, hv⟩ := stepsKinematicWalking_walk kernels start _ hstart hinit
  simp only [] at hl hv
  obtain ⟨walk', hwalk', hl', hv', hidx⟩ :=
    stepKinematicWalking_walk kernel (stepsKinematicWalking kernels start) walk hwalk
      (by rw [hl]; exact hv)
  obtain ⟨walk'', hwalk'', hsame, hswitch⟩ :=
    stepKinematicWalking_stored_height kernel (stepsKinematicWalking kernels start) walk hwalk
  have hww : walk'' = walk' := Option.some.inj (hwalk''.symm.trans hwalk')
  subst hww
  refine ⟨walk, walk'', hwalk, ?_, hl, by rw [hl', hl], by rw [hl] at hv'; exact hv', ?_, ?_, ?_⟩
  · rw [stepsKinematicWalking_append]; exact hwalk'
  · intro j hj
    obtain ⟨-, -, hmin, hle, -⟩ :=
      scan_spec (decisionBody kernel (stepsKinematicWalking kernels start).body walk) walk.legged
        walk.supportFootIndex
    rw [hidx, ← hl]
    by_cases hjs : j = walk.supportFootIndex
    · rw [hjs]; exact hle
    · exact hmin j (by rw [hl]; exact hj) hjs
  · intro heq
    rw [stepsKinematicWalking_append, hsame heq]
  · intro hne
    obtain ⟨hlow, hstored⟩ := hswitch hne
    rw [hl] at hlow hstored
    refine ⟨hlow, ?_⟩
    intro hlinks
    rw [stepsKinematicWalking_append]
    apply hstored
    rw [stepsKinematicWalking_length]
    exact hlinks

theorem support_foot_height_after_step_witness :
    (1 ≤ sampleLegged.numFeet ∧
      sampleWalker.walk = (KinematicWalkBody 1 sampleBiped sampleLegged).walk) ∧
    ∃ (walk walk' : KinematicWalk),
      (stepsKinematicWalking [] sampleWalker).walk = some walk ∧
      (stepsKinematicWalking ([] ++ [sampleSwingKernel]) sampleWalker).walk = some walk' ∧
      walk.legged = sampleLegged ∧
      walk'.legged = sampleLegged ∧
      walk'.supportFootIndex < sampleLegged.numFeet ∧
      (∀ j, j < sampleLegged.numFeet →
        (decisionBody sampleSwingKernel (stepsKinematicWalking [] sampleWalker).body walk).height
            (sampleLegged.footLink walk'.supportFootIndex) ≤
          (decisionBody sampleSwingKernel (stepsKinematicWalking [] sampleWalker).body walk).height
            (sampleLegged.footLink j)) ∧
      (walk'.supportFootIndex = walk.supportFootIndex →
        (stepsKinematicWalking ([] ++ [sampleSwingKernel]) sampleWalker).body.height
            (sampleLegged.footLink walk'.supportFootIndex) =
          (decisionBody sampleSwingKernel (stepsKinematicWalking [] sampleWalker).body walk).height
            (sampleLegged.footLink walk'.supportFootIndex)) ∧
      (walk'.supportFootIndex ≠ walk.supportFootIndex →
        (decisionBody sampleSwingKernel (stepsKinematicWalking [] sampleWalker).body walk).height
            (sampleLegged.footLink walk'.supportFootIndex) <
          (decisionBody sampleSwingKernel (stepsKinematicWalking [] sampleWalker).body walk).height
            (sampleLegged.footLink walk.supportFootIndex) ∧
        ((∀ f ∈ sampleLegged.footLinks, f < sampleWalker.body.links.length) →
          (stepsKinematicWalking ([] ++ [sampleSwingKernel]) sampleWalker).body.height
              (sampleLegged.footLink walk'.supportFootIndex) =
            (decisionBody sampleSwingKernel (stepsKinematicWalking [] sampleWalker).body walk).height
              (sampleLegged.footLink walk.supportFootIndex))) :=
  ⟨⟨by decide, rfl⟩,
    support_foot_height_after_step 1 sampleBiped sampleLegged sampleWalker [] sampleSwingKernel
      (by decide) rfl⟩

/-- C3, as stated, fails: the biped stands on foot `0` (link `1`, height `0`); the first
kinematics pass of the step puts foot `1` (link `2`) at height `-1`, so the support foot
switches to foot `1`, and the switch writes height `0` (the outgoing foot's height) into
link `2`.  After the step the height recorded for the support foot is `0`, while the
minimum of the foot heights computed for the decision is `-1`. -/
theorem support_foot_recorded_height_counterexample :
    (stepsKinematicWalking [sampleSwingKernel] sampleWalker).walk =
        some { legged := sampleLegged, supportFootIndex := 1, traverse := LinkTraverse.find 2 } ∧
      (stepsKinematicWalking [sampleSwingKernel] sampleWalker).body.height
        (sampleLegged.footLink 1) = 0 ∧
      (decisionBody sampleSwingKernel sampleWalker.body sampleWalk).height
        (sampleLegged.footLink 0) = 0 ∧
      (decisionBody sampleSwingKernel sampleWalker.body sampleWalk).height
        (sampleLegged.footLink 1) = -1 ∧
      ¬ (∀ j, j < sampleLegged.numFeet →
        (stepsKinematicWalking [sampleSwingKernel] sampleWalker).body.height
            (sampleLegged.footLink 1) ≤
          (decisionBody sampleSwingKernel sampleWalker.body sampleWalk).height
            (sampleLegged.footLink j)) := by
  decide

/-! ## Persistence: store followed by restore -/

theorem assign_string (strtod : String → Option Double) (f d : FloatingNumberString)
    (h : strtod f.s = some f.v) : d.assign strtod f.string = f := by
  simp [FloatingNumberString.assign, FloatingNumberString.string, h]

theorem calcForwardKinematicsFrom_joint_state (kernel : KinematicsKernel) (root : Nat) (b : DyBody)
    (P : Double → Double → Double → Vector3 → Vector3 → Prop)
    (h : ∀ l ∈ b.links, P l.u l.dq l.ddq l.f_ext l.tau_ext) :
    ∀ l ∈ (calcForwardKinematicsFrom kernel root b).links, P l.u l.dq l.ddq l.f_ext l.tau_ext := by
  intro l hl
  obtain ⟨i, hi⟩ := List.mem_iff_getElem?.mp hl
  rw [getElem?_calcForwardKinematicsFrom] at hi
  cases hb : b.links[i]? with
  | none => simp [hb] at hi
  | some l0 =>
    have hmem : l0 ∈ b.links := List.mem_iff_getElem?.mpr ⟨i, hb⟩
    have h0 := h l0 hmem
    simp only [hb, Option.map_some', Option.some.injEq] at hi
    subst hi
    split
    · exact h0
    · exact h0

theorem addBody_snd (kernel : KinematicsKernel) (impl : BCSimulatorItemImpl) (simBody : BCSimBody) :
    (impl.addBody kernel simBody).2 =
      { simBody with
        body := DyBody.calcForwardKinematics kernel
          (DyBody.clearExternalForces
            { simBody.body.modifyLink 0 resetRootLink with
              links := (simBody.body.modifyLink 0 resetRootLink).links.map resetLink }) } := rfl

theorem addBodies_snd (kernel : KinematicsKernel) (impl : BCSimulatorItemImpl)
    (simBodies : List BCSimBody) :
    (addBodies kernel impl simBodies).2 = simBodies.map (fun simBody => (impl.addBody kernel simBody).2) := by
  induction simBodies generalizing impl with
  | nil => rfl
  | cons simBody rest ih =>
    simp only [addBodies, List.map_cons, ih]
    rfl

theorem addBody_links_reset (kernel : KinematicsKernel) (impl : BCSimulatorItemImpl)
    (simBody : BCSimBody) :
    ∀ l ∈ (impl.addBody kernel simBody).2.body.links,
      l.u = 0 ∧ l.dq = 0 ∧ l.ddq = 0 ∧ l.f_ext = Vector3.zero ∧ l.tau_ext = Vector3.zero := by
  rw [addBody_snd]
  apply calcForwardKinematicsFrom_joint_state kernel 0 _
    (fun u dq ddq f tau => u = 0 ∧ dq = 0 ∧ ddq = 0 ∧ f = Vector3.zero ∧ tau = Vector3.zero)
  intro l hl
  simp only [DyBody.clearExternalForces, List.mem_map] at hl
  obtain ⟨l1, ⟨l0, -, rfl⟩, rfl⟩ := hl
  simp [resetLink]

theorem addBody_rootLink_reset (kernel : KinematicsKernel) (impl : BCSimulatorItemImpl)
    (simBody : BCSimBody) (rootLink : DyLink)
    (h : (impl.addBody kernel simBody).2.body.rootLink = some rootLink) :
    rootLink.v = Vector3.zero ∧ rootLink.w = Vector3.zero ∧ rootLink.vo = Vector3.zero ∧
      rootLink.dv = Vector3.zero ∧ rootLink.dw = Vector3.zero ∧ rootLink.dvo = Vector3.zero := by
  rw [addBody_snd] at h
  simp only [DyBody.rootLink, DyBody.calcForwardKinematics, calcForwardKinematicsFrom_root,
    DyBody.clearExternalForces, DyBody.modifyLink, List.getElem?_map,
    List.getElem?_modify_eq] at h
  cases h0 : simBody.body.links[0]? with
  | none => simp [h0] at h
  | some l0 =>
    simp only [h0, Option.map_some', Option.map_eq_map, Option.some.injEq] at h
    subst h
    simp [resetLink, resetRootLink]

theorem calcForwardKinematicsFrom_link (kernel : KinematicsKernel) (root : Nat) (b : DyBody)
    (j : Nat) (l1 : DyLink) (h : b.links[j]? = some l1) :
    ∃ l2 : DyLink, (calcForwardKinematicsFrom kernel root b).links[j]? = some l2 ∧
      l2.u = l1.u ∧ l2.dq = l1.dq ∧ l2.ddq = l1.ddq ∧ l2.q = l1.q ∧
      l2.f_ext = l1.f_ext ∧ l2.tau_ext = l1.tau_ext ∧ (j = root → l2 = l1) := by
  rw [getElem?_calcForwardKinematicsFrom, h]
  by_cases hj : j = root
  · exact ⟨l1, by simp [hj], rfl, rfl, rfl, rfl, rfl, rfl, fun _ => rfl⟩
  · exact ⟨l1.setCartesian (kernel root b.links j), by simp only [Option.map_some', if_neg hj],
      rfl, rfl, rfl, rfl, rfl, rfl, fun h' => absurd h' hj⟩

theorem addBody_link (kernel : KinematicsKernel) (impl : BCSimulatorItemImpl)
    (simBody : BCSimBody) (j : Nat) (l : DyLink) (h : simBody.body.links[j]? = some l) :
    ∃ l1 : DyLink, (impl.addBody kernel simBody).2.body.links[j]? = some l1 ∧
      l1.u = 0 ∧ l1.dq = 0 ∧ l1.ddq = 0 ∧ l1.f_ext = Vector3.zero ∧ l1.tau_ext = Vector3.zero ∧
      l1.q = l.q ∧
      (j = 0 → l1.p = l.p ∧ l1.R = l.R ∧ l1.v = Vector3.zero ∧ l1.w = Vector3.zero ∧
        l1.vo = Vector3.zero ∧ l1.dv = Vector3.zero ∧ l1.dw = Vector3.zero ∧
        l1.dvo = Vector3.zero) := by
  rw [addBody_snd]
  have hpre : (DyBody.clearExternalForces
      { simBody.body.modifyLink 0 resetRootLink with
        links := (simBody.body.modifyLink 0 resetRootLink).links.map resetLink }).links[j]? =
      some { resetLink (if 0 = j then resetRootLink l else l) with
             f_ext := Vector3.zero, tau_ext := Vector3.zero } := by
    simp [DyBody.clearExternalForces, DyBody.modifyLink, List.getElem?_map, List.getElem?_modify, h]
  obtain ⟨l2, hl2, hu, hdq, hddq, hq, hf, htau, hroot⟩ :=
    calcForwardKinematicsFrom_link kernel 0 _ j _ hpre
  refine ⟨l2, hl2, ?_, ?_, ?_, ?_, ?_, ?_, ?_⟩
  · rw [hu]; rfl
  · rw [hdq]; rfl
  · rw [hddq]; rfl
  · rw [hf]
  · rw [htau]
  · rw [hq]; split <;> rfl
  · intro hj
    rw [hroot hj]
    subst hj
    simp [resetLink, resetRootLink]

theorem initializeSimulation_bodies (kernel worldKernel : KinematicsKernel)
    (impl : BCSimulatorItemImpl) (simBodies : List BCSimBody) :
    (impl.initializeSimulation kernel worldKernel simBodies).2.2 =
      simBodies.map (fun simBody =>
        { simBody with
          body := DyBody.calcForwardKinematics worldKernel (impl.addBody kernel simBody).2.body }) := by
  simp only [BCSimulatorItemImpl.initializeSimulation, addBodies_snd, List.map_map]
  rfl

/-- C6: for every list of bodies and every prior state, `initializeSimulation` returns the
same bodies in the same order (same identity, controller, walking state, joints and number
of links), and every link that was passed in has afterwards `u`, `dq`, `ddq` zero and its
external force and torque cleared, with its joint position `q` kept; the root link keeps
its pose and has `v`, `w`, `vo`, `dv`, `dw`, `dvo` zero. -/
theorem initializeSimulation_resets_bodies (kernel worldKernel : KinematicsKernel)
    (impl : BCSimulatorItemImpl) (simBodies : List BCSimBody) :
    (impl.initializeSimulation kernel worldKernel simBodies).1 = true ∧
    (impl.initializeSimulation kernel worldKernel simBodies).2.2.length = simBodies.length ∧
    ∀ (i : Nat) (simBody : BCSimBody), simBodies[i]? = some simBody →
      ∃ simBody' : BCSimBody,
        (impl.initializeSimulation kernel worldKernel simBodies).2.2[i]? = some simBody' ∧
        simBody'.identity = simBody.identity ∧
        simBody'.controller = simBody.controller ∧
        simBody'.walk = simBody.walk ∧
        simBody'.body.jointIdToLink = simBody.body.jointIdToLink ∧
        simBody'.body.links.length = simBody.body.links.length ∧
        ∀ (j : Nat) (l : DyLink), simBody.body.links[j]? = some l →
          ∃ l' : DyLink, simBody'.body.links[j]? = some l' ∧
            l'.u = 0 ∧ l'.dq = 0 ∧ l'.ddq = 0 ∧
            l'.f_ext = Vector3.zero ∧ l'.tau_ext = Vector3.zero ∧
            l'.q = l.q ∧
            (j = 0 → l'.p = l.p ∧ l'.R = l.R ∧ l'.v = Vector3.zero ∧ l'.w = Vector3.zero ∧
              l'.vo = Vector3.zero ∧ l'.dv = Vector3.zero ∧ l'.dw = Vector3.zero ∧
              l'.dvo = Vector3.zero) := by
  refine ⟨rfl, ?_, ?_⟩
  · simp [initializeSimulation_bodies]
  · intro i simBody hi
    refine ⟨{ simBody with
        body := DyBody.calcForwardKinematics worldKernel (impl.addBody kernel simBody).2.body },
      ?_, rfl, rfl, rfl, rfl, ?_, ?_⟩
    · simp only [initializeSimulation_bodies, List.getElem?_map, hi, Option.map_some']
    · simp [DyBody.calcForwardKinematics, length_calcForwardKinematicsFrom, addBody_snd,
        DyBody.clearExternalForces, DyBody.modifyLink]
    · intro j l hl
      obtain ⟨l1, hl1, hu, hdq, hddq, hf, htau, hq, hroot⟩ :=
        addBody_link kernel impl simBody j l hl
      obtain ⟨l2, hl2, hu2, hdq2, hddq2, hq2, hf2, htau2, hroot2⟩ :=
        calcForwardKinematicsFrom_link worldKernel 0 _ j l1 hl1
      refine ⟨l2, hl2, by rw [hu2, hu], by rw [hdq2, hdq], by rw [hddq2, hddq],
        by rw [hf2, hf], by rw [htau2, htau], by rw [hq2, hq], ?_⟩
      intro hj
      rw [hroot2 hj]
      exact hroot hj

theorem addBody_dynamicsMode (kernel : KinematicsKernel) (impl : BCSimulatorItemImpl)
    (simBody : BCSimBody) : (impl.addBody kernel simBody).1.dynamicsMode = impl.dynamicsMode := rfl

theorem addBody_bodyInfoArray (kernel : KinematicsKernel) (impl : BCSimulatorItemImpl)
    (simBody : BCSimBody) :
    (impl.addBody kernel simBody).1.world.bodyInfoArray =
      impl.world.bodyInfoArray ++
        [⟨simBody.identity,
          if isHighGainMode impl.dynamicsMode simBody.controller then some ⟨true⟩ else none⟩] := by
  simp only [BCSimulatorItemImpl.addBody]
  split <;> rfl

theorem addBodies_dynamicsMode (kernel : KinematicsKernel) (impl : BCSimulatorItemImpl)
    (simBodies : List BCSimBody) :
    (addBodies kernel impl simBodies).1.dynamicsMode = impl.dynamicsMode := by
  induction simBodies generalizing impl with
  | nil => rfl
  | cons simBody rest ih => simp only [addBodies, ih, addBody_dynamicsMode]

theorem addBodies_bodyInfoArray (kernel : KinematicsKernel) (impl : BCSimulatorItemImpl)
    (simBodies : List BCSimBody) :
    (addBodies kernel impl simBodies).1.world.bodyInfoArray =
      impl.world.bodyInfoArray ++ simBodies.map (fun simBody =>
        ⟨simBody.identity,
          if isHighGainMode impl.dynamicsMode simBody.controller then some ⟨true⟩ else none⟩) := by
  induction simBodies generalizing impl with
  | nil => simp [addBodies]
  | cons simBody rest ih =>
    simp only [addBodies, ih, addBody_bodyInfoArray, addBody_dynamicsMode, List.map_cons,
      List.append_assoc, List.singleton_append]

theorem initializeSimulation_bodyInfoArray (kernel worldKernel : KinematicsKernel)
    (impl : BCSimulatorItemImpl) (simBodies : List BCSimBody) :
    (impl.initializeSimulation kernel worldKernel simBodies).2.1.world.bodyInfoArray =
      simBodies.map (fun simBody =>
        ⟨simBody.identity,
          if isHighGainMode impl.dynamicsMode simBody.controller then some ⟨true⟩ else none⟩) := by
  simp only [BCSimulatorItemImpl.initializeSimulation, addBodies_bodyInfoArray, World.clearBodies,
    List.nil_append]

/-- C7, as the code has it: in a run registered by `initializeSimulation`, a body whose
controller is a `HighGainControllerItem` is added with a high-gain delegate under every
global mode; a body without such a controller is added without a delegate when the global
mode is forward dynamics or kinematics, and with a high-gain delegate when the global mode
is high-gain dynamics. -/
theorem mixed_run_delegates (kernel worldKernel : KinematicsKernel) (impl : BCSimulatorItemImpl)
    (simBodies : List BCSimBody) (i j : Nat) (highGainBody otherBody : BCSimBody)
    (hi : simBodies[i]? = some highGainBody) (hj : simBodies[j]? = some otherBody)
    (hhg : highGainBody.controller = some .HighGainControllerItem)
    (hother : otherBody.controller ≠ some .HighGainControllerItem) :
    (impl.initializeSimulation kernel worldKernel simBodies).2.1.world.bodyInfoArray[i]? =
      some ⟨highGainBody.identity, some ⟨true⟩⟩ ∧
    (impl.dynamicsMode ≠ .HG_DYNAMICS →
      (impl.initializeSimulation kernel worldKernel simBodies).2.1.world.bodyInfoArray[j]? =
        some ⟨otherBody.identity, none⟩) ∧
    (impl.dynamicsMode = .HG_DYNAMICS →
      (impl.initializeSimulation kernel worldKernel simBodies).2.1.world.bodyInfoArray[j]? =
        some ⟨otherBody.identity, some ⟨true⟩⟩) := by
  rw [initializeSimulation_bodyInfoArray]
  simp only [List.getElem?_map, hi, hj, Option.map_some']
  refine ⟨?_, ?_, ?_⟩
  · simp [isHighGainMode, hhg]
  · intro hmode
    simp [isHighGainMode, hother, hmode]
  · intro hmode
    simp [isHighGainMode, hother, hmode]

theorem mixed_run_delegates_witness :
    ([sampleHighGainBody, sampleTorqueBody][0]? = some sampleHighGainBody ∧
      [sampleHighGainBody, sampleTorqueBody][1]? = some sampleTorqueBody ∧
      sampleHighGainBody.controller = some .HighGainControllerItem ∧
      sampleTorqueBody.controller ≠ some .HighGainControllerItem) ∧
    (sampleImpl.initializeSimulation sampleKernel sampleKernel
        [sampleHighGainBody, sampleTorqueBody]).2.1.world.bodyInfoArray[0]? =
      some ⟨1, some ⟨true⟩⟩ ∧
    (sampleImpl.dynamicsMode ≠ .HG_DYNAMICS →
      (sampleImpl.initializeSimulation sampleKernel sampleKernel
          [sampleHighGainBody, sampleTorqueBody]).2.1.world.bodyInfoArray[1]? =
        some ⟨2, none⟩) ∧
    (sampleImpl.dynamicsMode = .HG_DYNAMICS →
      (sampleImpl.initializeSimulation sampleKernel sampleKernel
          [sampleHighGainBody, sampleTorqueBody]).2.1.world.bodyInfoArray[1]? =
        some ⟨2, some ⟨true⟩⟩) :=
  ⟨⟨rfl, rfl, rfl, by decide⟩,
    mixed_run_delegates sampleKernel sampleKernel sampleImpl [sampleHighGainBody, sampleTorqueBody]
      0 1 sampleHighGainBody sampleTorqueBody rfl rfl rfl (by decide)⟩

/-- C7, as stated, fails under the global mode `HG_DYNAMICS`: in the run of the body `1`
(high-gain controller) and the body `2` (no controller), the body `2` is added with a
high-gain delegate too. -/
theorem mixed_run_high_gain_mode_counterexample :
    sampleHighGainImpl.dynamicsMode = .HG_DYNAMICS ∧
    sampleTorqueBody.controller = none ∧
    (sampleHighGainImpl.initializeSimulation sampleKernel sampleKernel
        [sampleHighGainBody, sampleTorqueBody]).2.1.world.bodyInfoArray =
      [⟨1, some ⟨true⟩⟩, ⟨2, some ⟨true⟩⟩] := by
  decide

/-- C8: `addBody` appends the body to the world with a high-gain delegate exactly when the
global mode is `HG_DYNAMICS` or the controller of the body is a `HighGainControllerItem`,
and without a delegate otherwise; in both cases `bodyIndexMap` holds, under the body, the
handle the world returned, which is the index of the new entry. -/
theorem addBody_high_gain_rule (kernel : KinematicsKernel) (impl : BCSimulatorItemImpl)
    (simBody : BCSimBody) :
    ∃ forwardDynamics : Option ForwardDynamicsCBM,
      (impl.addBody kernel simBody).1.world.bodyInfoArray =
        impl.world.bodyInfoArray ++ [⟨simBody.identity, forwardDynamics⟩] ∧
      (forwardDynamics = some ⟨true⟩ ↔
        (impl.dynamicsMode = .HG_DYNAMICS ∨
          simBody.controller = some .HighGainControllerItem)) ∧
      (forwardDynamics = none ↔
        ¬ (impl.dynamicsMode = .HG_DYNAMICS ∨
          simBody.controller = some .HighGainControllerItem)) ∧
      lookupBodyIndex (impl.addBody kernel simBody).1.bodyIndexMap simBody.identity =
        some (impl.world.addBody simBody.identity forwardDynamics).1 ∧
      (impl.addBody kernel simBody).1.world.bodyInfoArray[
        (impl.world.addBody simBody.identity forwardDynamics).1]? =
        some ⟨simBody.identity, forwardDynamics⟩ := by
  refine ⟨if isHighGainMode impl.dynamicsMode simBody.controller then some ⟨true⟩ else none,
    addBody_bodyInfoArray kernel impl simBody, ?_, ?_, ?_, ?_⟩
  · by_cases hc : simBody.controller = some .HighGainControllerItem
    · simp [isHighGainMode, hc]
    · simp [isHighGainMode, hc]
  · by_cases hc : simBody.controller = some .HighGainControllerItem
    · simp [isHighGainMode, hc]
    · simp [isHighGainMode, hc]
  · simp only [BCSimulatorItemImpl.addBody, World.addBody]
    split <;> simp [lookupBodyIndex, assignBodyIndex]
  · rw [addBody_bodyInfoArray]
    simp [World.addBody]

/-! ## The high-gain controller: start and the first output -/

theorem start_guards (rateDiffers : Double → Double → Bool) (c : HighGainControllerItem)
    (target : Target) :
    (c.qseqRef.numFrames = 0 → (c.start rateDiffers target).1 = false) ∧
    (rateDiffers c.qseqRef.frameRate target.worldTimeStep = true →
      (c.start rateDiffers target).1 = false) ∧
    (1 ≤ c.qseqRef.numFrames →
      rateDiffers c.qseqRef.frameRate target.worldTimeStep = false →
      (c.start rateDiffers target).1 = true) := by
  refine ⟨?_, ?_, ?_⟩
  · intro h
    simp [HighGainControllerItem.start, h]
  · intro h
    simp only [HighGainControllerItem.start, h]
    split <;> rfl
  · intro hn h
    have hn0 : ¬ c.qseqRef.numFrames = 0 := by omega
    simp [HighGainControllerItem.start, hn0, h]

theorem start_success (rateDiffers : Double → Double → Bool) (c : HighGainControllerItem)
    (target : Target) (h : (c.start rateDiffers target).1 = true) :
    1 ≤ c.qseqRef.numFrames ∧
    (c.start rateDiffers target).2 =
      { qseqRef := c.qseqRef,
        currentFrame := if c.qseqRef.numFrames = 1 then 0 else 1,
        lastFrame := c.qseqRef.numFrames - 1,
        numJoints := min (target.body.numJoints : Int) (c.qseqRef.numParts : Int) } := by
  have hnonneg : 0 ≤ c.qseqRef.numFrames := by simp [MultiValueSeq.numFrames]
  simp only [HighGainControllerItem.start] at h ⊢
  by_cases h0 : c.qseqRef.numFrames = 0
  · simp [h0] at h
  · rw [if_neg h0] at h ⊢
    by_cases hrate : rateDiffers c.qseqRef.frameRate target.worldTimeStep = true
    · rw [if_pos hrate] at h
      exact absurd h (by simp)
    · rw [if_neg hrate]
      refine ⟨by omega, ?_⟩
      have hmax : max 0 (c.qseqRef.numFrames - 1) = c.qseqRef.numFrames - 1 := by
        apply max_eq_right; omega
      simp only [HighGainControllerItem.control, hmax]
      by_cases h1 : c.qseqRef.numFrames = 1
      · simp [h1]
      · have hcmp : ¬ (0 + 1 > c.qseqRef.numFrames - 1) := by omega
        rw [if_neg hcmp]
        simp [h1]

theorem outputJoint_jointIdToLink (seq : MultiValueSeq) (f0 f1 f2 : Int) (body : DyBody) (i : Nat) :
    (outputJoint seq f0 f1 f2 body i).jointIdToLink = body.jointIdToLink := by
  unfold outputJoint
  cases body.jointIdToLink[i]? <;> rfl

theorem outputJoint_length (seq : MultiValueSeq) (f0 f1 f2 : Int) (body : DyBody) (i : Nat) :
    (outputJoint seq f0 f1 f2 body i).links.length = body.links.length := by
  unfold outputJoint
  cases body.jointIdToLink[i]? <;> simp [DyBody.modifyLink]

theorem output_fold_invariant (seq : MultiValueSeq) (f0 f1 f2 : Int) (body : DyBody)
    (hnodup : body.jointIdToLink.Nodup)
    (hrange : ∀ l ∈ body.jointIdToLink, l < body.links.length) (k : Nat)
    (hk : k ≤ body.jointIdToLink.length) :
    ((List.range k).foldl (outputJoint seq f0 f1 f2) body).jointIdToLink = body.jointIdToLink ∧
    ((List.range k).foldl (outputJoint seq f0 f1 f2) body).links.length = body.links.length ∧
    ∀ i, i < k → ∃ joint : DyLink,
      ((List.range k).foldl (outputJoint seq f0 f1 f2) body).joint i = some joint ∧
        joint.q = seq.frame f1 i := by
  induction k with
  | zero => simp
  | succ k ih =>
    obtain ⟨hj, hlen, hq⟩ := ih (by omega)
    simp only [List.range_succ, List.foldl_append, List.foldl_cons, List.foldl_nil]
    generalize (List.range k).foldl (outputJoint seq f0 f1 f2) body = b at hj hlen hq
    refine ⟨by rw [outputJoint_jointIdToLink, hj], by rw [outputJoint_length, hlen], ?_⟩
    have hklt : k < body.jointIdToLink.length := by omega
    have hkget : b.jointIdToLink[k]? = some body.jointIdToLink[k] := by
      rw [hj, List.getElem?_eq_getElem hklt]
    have hkrange : body.jointIdToLink[k] < b.links.length := by
      rw [hlen]; exact hrange _ (List.getElem_mem hklt)
    intro i hi
    by_cases hik : i = k
    · subst hik
      simp only [DyBody.joint, outputJoint, hkget, DyBody.modifyLink, List.getElem?_modify_eq,
        List.getElem?_eq_getElem hkrange, Option.map_some']
      exact ⟨_, rfl, rfl⟩
    · have hilt : i < k := by omega
      obtain ⟨joint, hjoint, hjq⟩ := hq i hilt
      refine ⟨joint, ?_, hjq⟩
      have higet : b.jointIdToLink[i]? = some body.jointIdToLink[i] := by
        rw [hj, List.getElem?_eq_getElem (by omega)]
      have hne : body.jointIdToLink[k] ≠ body.jointIdToLink[i] := by
        intro heq
        have := (List.Nodup.getElem_inj_iff hnodup).mp heq
        omega
      simp only [DyBody.joint, higet] at hjoint
      simp only [DyBody.joint, outputJoint, hkget, DyBody.modifyLink, higet,
        List.getElem?_modify_ne _ _ hne]
      exact hjoint

/-- C10, as the code has it: `start` ends with a call of `control()`, which advances
`currentFrame` from `0` to `1` (or leaves it at `0` when the motion has a single frame).
After a successful start, `output()` sets the position `q` of every driven joint to the
joint's value in frame `1` of the reference motion, and in frame `0` only when the motion
has exactly one frame. -/
theorem first_output_position (rateDiffers : Double → Double → Bool)
    (c : HighGainControllerItem) (target : Target)
    (hstart : (c.start rateDiffers target).1 = true)
    (hnodup : target.body.jointIdToLink.Nodup)
    (hrange : ∀ l ∈ target.body.jointIdToLink, l < target.body.links.length) :
    ∀ i : Nat, (i : Int) < min (target.body.numJoints : Int) (c.qseqRef.numParts : Int) →
      ∃ joint : DyLink,
        ((c.start rateDiffers target).2.output target.body).joint i = some joint ∧
        joint.q = c.qseqRef.frame (if c.qseqRef.numFrames = 1 then 0 else 1) i := by
  intro i hi
  obtain ⟨-, heq⟩ := start_success rateDiffers c target hstart
  rw [heq]
  simp only [HighGainControllerItem.output]
  have hk : (min (target.body.numJoints : Int) (c.qseqRef.numParts : Int)).toNat ≤
      target.body.jointIdToLink.length := by
    simp only [DyBody.numJoints]
    omega
  have hik : i < (min (target.body.numJoints : Int) (c.qseqRef.numParts : Int)).toNat := by
    omega
  exact (output_fold_invariant c.qseqRef _ _ _ target.body hnodup hrange _ hk).2.2 i hik

theorem first_output_position_witness :
    ((sampleController.start sampleRateDiffers sampleTarget).1 = true ∧
      sampleTarget.body.jointIdToLink.Nodup ∧
      ∀ l ∈ sampleTarget.body.jointIdToLink, l < sampleTarget.body.links.length) ∧
    ∀ i : Nat,
      (i : Int) < min (sampleTarget.body.numJoints : Int) (sampleController.qseqRef.numParts : Int) →
      ∃ joint : DyLink,
        ((sampleController.start sampleRateDiffers sampleTarget).2.output
          sampleTarget.body).joint i = some joint ∧
        joint.q =
          sampleController.qseqRef.frame (if sampleController.qseqRef.numFrames = 1 then 0 else 1) i :=
  have hstart : (sampleController.start sampleRateDiffers sampleTarget).1 = true := by
    norm_num [HighGainControllerItem.start, sampleRateDiffers, sampleController, sampleTarget,
      sampleMotion, MultiValueSeq.numFrames]
  ⟨⟨hstart, by decide, by decide⟩,
    first_output_position sampleRateDiffers sampleController sampleTarget hstart (by decide) (by decide)⟩

/-- C10, as stated, fails for a motion of two frames: frame `0` holds position `5` and
frame `1` holds position `7` for the only joint; `start` succeeds, and the `output()` that
follows writes `7`, the value of frame `1`, into the joint. -/
theorem first_output_frame_counterexample :
    (sampleController.start sampleRateDiffers sampleTarget).1 = true ∧
    sampleMotion.frame 0 0 = 5 ∧
    sampleMotion.frame 1 0 = 7 ∧
    (((sampleController.start sampleRateDiffers sampleTarget).2.output sampleTarget.body).joint 0).map
      (fun joint => joint.q) = some 7 ∧
    (((sampleController.start sampleRateDiffers sampleTarget).2.output sampleTarget.body).joint 0).map
      (fun joint => joint.q) ≠ some (sampleMotion.frame 0 0) := by
  have hstart : (sampleController.start sampleRateDiffers sampleTarget).1 = true := by
    norm_num [HighGainControllerItem.start, sampleRateDiffers, sampleController, sampleTarget,
      sampleMotion, MultiValueSeq.numFrames]
  obtain ⟨-, heq⟩ := start_success sampleRateDiffers sampleController sampleTarget hstart
  rw [heq]
  exact ⟨hstart, by decide, by decide, by decide, by decide⟩

/-! ## Solver settings after initialization -/

theorem addBody_fst_shape (kernel : KinematicsKernel) (impl : BCSimulatorItemImpl)
    (simBody : BCSimBody) :
    ∃ (infos : List BodyInfo) (indexMap : List (Nat × Nat)),
      (impl.addBody kernel simBody).1 =
        { impl with world := { impl.world with bodyInfoArray := infos }, bodyIndexMap := indexMap } := by
  simp only [BCSimulatorItemImpl.addBody, World.addBody]
  split <;> exact ⟨_, _, rfl⟩

theorem addBodies_fst_shape (kernel : KinematicsKernel) (impl : BCSimulatorItemImpl)
    (simBodies : List BCSimBody) :
    ∃ (infos : List BodyInfo) (indexMap : List (Nat × Nat)),
      (addBodies kernel impl simBodies).1 =
        { impl with world := { impl.world with bodyInfoArray := infos }, bodyIndexMap := indexMap } := by
  induction simBodies generalizing impl with
  | nil => exact ⟨impl.world.bodyInfoArray, impl.bodyIndexMap, rfl⟩
  | cons simBody rest ih =>
    obtain ⟨infos1, map1, h1⟩ := addBody_fst_shape kernel impl simBody
    obtain ⟨infos2, map2, h2⟩ := ih (impl.addBody kernel simBody).1
    refine ⟨infos2, map2, ?_⟩
    simp only [addBodies]
    rw [h2, h1]

theorem initializeSimulation_solver_settings (kernel worldKernel : KinematicsKernel)
    (impl : BCSimulatorItemImpl) (simBodies : List BCSimBody) :
    (impl.initializeSimulation kernel worldKernel simBodies).2.1.world.constraintForceSolver =
      { impl.world.constraintForceSolver with
        solverID := solverID impl.solverMode
        staticFriction := impl.staticFriction
        slipFriction := impl.slipFriction
        contactCullingDistance := impl.contactCullingDistance.value
        contactCullingDepth := impl.contactCullingDepth.value
        coefficientOfRestitution := impl.epsilon
        gaussSeidelErrorCriterion := impl.errorCriterion.value
        gaussSeidelMaxNumIterations := impl.maxNumIterations
        contactCorrectionDepth := impl.contactCorrectionDepth.value
        contactCorrectionVelocityRatio := impl.contactCorrectionVelocityRatio.value
        is2Dmode := impl.is2Dmode || impl.world.constraintForceSolver.is2Dmode
        penaltyKpCoef := impl.penaltyKpCoef
        penaltyKvCoef := impl.penaltyKvCoef
        penaltySizeRatio := impl.penaltySizeRatio
        collisionDetector := impl.self.collisionDetector } ∧
    (impl.initializeSimulation kernel worldKernel simBodies).2.1.world.gravityAcceleration =
      impl.gravity ∧
    (impl.initializeSimulation kernel worldKernel simBodies).2.1.world.timeStep =
      impl.self.worldTimeStep := by
  simp only [BCSimulatorItemImpl.initializeSimulation]
  obtain ⟨infos, indexMap, h⟩ := addBodies_fst_shape kernel
    { impl with
      self := { impl.self with
        preDynamicsFunctions := (impl.self.preDynamicsFunctions.add .clearExternalForces).2 }
      world := World.clearBodies
        { impl.world with
          integrationMethod :=
            match impl.integrationMode with
            | .EULER_INTEGRATION => .EULER_METHOD
            | .RUNGE_KUTTA_INTEGRATION => .RUNGE_KUTTA_METHOD
          gravityAcceleration := impl.gravity
          sensorsEnabled := true
          timeStep := impl.self.worldTimeStep
          currentTime := 0
          constraintForceSolver :=
            { impl.world.constraintForceSolver with
              solverID := solverID impl.solverMode
              gaussSeidelErrorCriterion := impl.errorCriterion.value
              gaussSeidelMaxNumIterations := impl.maxNumIterations
              contactCorrectionDepth := impl.contactCorrectionDepth.value
              contactCorrectionVelocityRatio := impl.contactCorrectionVelocityRatio.value } }
      bodyIndexMap := [] } simBodies
  rw [h]
  cases h2D : impl.is2Dmode <;> simp [World.clearBodies, FunctionSet.add]

/-- C11: the claim fails on the 2D-mode flag for a solver left by an earlier run.  The item
is configured for 2D mode and initialized, then 2D mode is switched off in the
configuration and the item is initialized again: the configuration says `false`, the
solver is still in 2D mode, because `initializeSimulation` calls `cfs.set2Dmode` only with
`true`. -/
theorem solver_2D_mode_left_by_earlier_run :
    sample2DImpl.is2Dmode = true ∧
    sampleAfter2DRun.is2Dmode = false ∧
    sampleAfter2DRun.world.constraintForceSolver.is2Dmode = true ∧
    (sampleAfter2DRun.initializeSimulation sampleKernel sampleKernel
        [sampleHighGainBody, sampleTorqueBody]).2.1.is2Dmode = false ∧
    (sampleAfter2DRun.initializeSimulation sampleKernel sampleKernel
        [sampleHighGainBody, sampleTorqueBody]).2.1.world.constraintForceSolver.is2Dmode =
      true := by
  decide

/-! ## The forced-position hook -/

theorem clearForcedBodyPositions_simBodies (impl : BCSimulatorItemImpl) :
    impl.clearForcedBodyPositions.self.simBodies = impl.self.simBodies := by
  unfold BCSimulatorItemImpl.clearForcedBodyPositions
  cases impl.forcedBodyPositionFunctionId <;> rfl

theorem call_simBodies (impl : BCSimulatorItemImpl) (c : ForcedPositionCall) :
    (impl.call c).self.simBodies = impl.self.simBodies := by
  cases c with
  | setForcedBodyPosition bodyItem T => exact setForcedBodyPosition_simBodies impl bodyItem T
  | clearForcedBodyPositions => exact clearForcedBodyPositions_simBodies impl

theorem setForcedBodyPosition_armed (impl : BCSimulatorItemImpl) (bodyItem : Nat) (T : Position)
    (h : impl.forcedBodyPositionFunctionId.isSome) :
    (impl.setForcedBodyPosition bodyItem T).self.postDynamicsFunctions =
        impl.self.postDynamicsFunctions ∧
      (impl.setForcedBodyPosition bodyItem T).forcedBodyPositionFunctionId =
        impl.forcedBodyPositionFunctionId := by
  unfold BCSimulatorItemImpl.setForcedBodyPosition
  cases impl.self.findSimulationBody bodyItem with
  | none => exact ⟨rfl, rfl⟩
  | some simBody =>
    have hn : ¬ impl.forcedBodyPositionFunctionId.isNone = true := by
      cases hid : impl.forcedBodyPositionFunctionId with
      | none => simp [hid] at h
      | some id => simp
    simp only [hn]
    exact ⟨rfl, rfl⟩

theorem setForcedBodyPosition_unarmed (impl : BCSimulatorItemImpl) (bodyItem : Nat) (T : Position)
    (h : impl.forcedBodyPositionFunctionId = none)
    (hpresent : (impl.self.findSimulationBody bodyItem).isSome) :
    (impl.setForcedBodyPosition bodyItem T).self.postDynamicsFunctions.functions =
        impl.self.postDynamicsFunctions.functions ++
          [(impl.self.postDynamicsFunctions.idCounter, .doSetForcedBodyPosition)] ∧
      (impl.setForcedBodyPosition bodyItem T).forcedBodyPositionFunctionId =
        some impl.self.postDynamicsFunctions.idCounter := by
  unfold BCSimulatorItemImpl.setForcedBodyPosition
  cases hfind : impl.self.findSimulationBody bodyItem with
  | none => simp [hfind] at hpresent
  | some simBody => simp [h, FunctionSet.add]

/-- The invariant of the forced-position hook: unarmed, no registration of
`doSetForcedBodyPosition` exists; armed, exactly one exists and it carries the stored id. -/
theorem call_hook_invariant (impl : BCSimulatorItemImpl) (c : ForcedPositionCall)
    (hpresent : ∀ bodyItem T, c = .setForcedBodyPosition bodyItem T →
      (impl.self.findSimulationBody bodyItem).isSome)
    (hinv : (impl.forcedBodyPositionFunctionId = none ∧ forcedPositionHooks impl = 0) ∨
      (∃ id, impl.forcedBodyPositionFunctionId = some id ∧ forcedPositionHooks impl = 1 ∧
        ∀ e ∈ impl.self.postDynamicsFunctions.functions,
          e.2 = .doSetForcedBodyPosition → e.1 = id)) :
    ((impl.call c).forcedBodyPositionFunctionId = none ∧ forcedPositionHooks (impl.call c) = 0) ∨
      (∃ id, (impl.call c).forcedBodyPositionFunctionId = some id ∧
        forcedPositionHooks (impl.call c) = 1 ∧
        ∀ e ∈ (impl.call c).self.postDynamicsFunctions.functions,
          e.2 = .doSetForcedBodyPosition → e.1 = id) := by
  cases c with
  | setForcedBodyPosition bodyItem T =>
    simp only [BCSimulatorItemImpl.call]
    rcases hinv with ⟨hnone, hzero⟩ | ⟨id, hid, hone, hall⟩
    · right
      obtain ⟨hf, hi⟩ := setForcedBodyPosition_unarmed impl bodyItem T hnone
        (hpresent bodyItem T rfl)
      refine ⟨_, hi, ?_, ?_⟩
      · simp only [forcedPositionHooks] at hzero ⊢
        rw [hf, List.countP_append, hzero]
        simp
      · intro e he hdo
        rw [hf, List.mem_append] at he
        rcases he with he | he
        · exfalso
          simp only [forcedPositionHooks, List.countP_eq_zero] at hzero
          exact hzero e he (by simp [hdo])
        · simp only [List.mem_singleton] at he
          rw [he]
    · right
      obtain ⟨hf, hi⟩ := setForcedBodyPosition_armed impl bodyItem T (by simp [hid])
      refine ⟨id, by rw [hi, hid], ?_, ?_⟩
      · simp only [forcedPositionHooks] at hone ⊢
        rw [hf]; exact hone
      · rw [hf]; exact hall
  | clearForcedBodyPositions =>
    simp only [BCSimulatorItemImpl.call]
    rcases hinv with ⟨hnone, hzero⟩ | ⟨id, hid, hone, hall⟩
    · left
      have hsame : impl.clearForcedBodyPositions = impl := by
        simp only [BCSimulatorItemImpl.clearForcedBodyPositions, hnone]
      rw [hsame]
      exact ⟨hnone, hzero⟩
    · left
      simp only [BCSimulatorItemImpl.clearForcedBodyPositions, hid, forcedPositionHooks,
        FunctionSet.remove, true_and, List.countP_eq_zero, List.mem_filter]
      intro e ⟨he, hne⟩ hdo
      have := hall e he (by simpa using hdo)
      simp [this] at hne

theorem calls_hook_invariant (impl : BCSimulatorItemImpl) (calls : List ForcedPositionCall)
    (hpresent : ∀ bodyItem T, ForcedPositionCall.setForcedBodyPosition bodyItem T ∈ calls →
      (impl.self.findSimulationBody bodyItem).isSome)
    (hinv : (impl.forcedBodyPositionFunctionId = none ∧ forcedPositionHooks impl = 0) ∨
      (∃ id, impl.forcedBodyPositionFunctionId = some id ∧ forcedPositionHooks impl = 1 ∧
        ∀ e ∈ impl.self.postDynamicsFunctions.functions,
          e.2 = .doSetForcedBodyPosition → e.1 = id)) :
    ((impl.calls calls).forcedBodyPositionFunctionId = none ∧
        forcedPositionHooks (impl.calls calls) = 0) ∨
      (∃ id, (impl.calls calls).forcedBodyPositionFunctionId = some id ∧
        forcedPositionHooks (impl.calls calls) = 1 ∧
        ∀ e ∈ (impl.calls calls).self.postDynamicsFunctions.functions,
          e.2 = .doSetForcedBodyPosition → e.1 = id) := by
  induction calls generalizing impl with
  | nil => exact hinv
  | cons c cs ih =>
    simp only [BCSimulatorItemImpl.calls, List.foldl_cons]
    apply ih (impl.call c)
    · intro bodyItem T hmem
      simp only [SimulatorItem.findSimulationBody, call_simBodies]
      exact hpresent bodyItem T (List.mem_cons_of_mem _ hmem)
    · apply call_hook_invariant impl c _ hinv
      intro bodyItem T hc
      exact hpresent bodyItem T (by rw [hc]; exact List.mem_cons_self _ _)

theorem clearForcedBodyPositions_functionId (impl : BCSimulatorItemImpl) :
    impl.clearForcedBodyPositions.forcedBodyPositionFunctionId = none := by
  unfold BCSimulatorItemImpl.clearForcedBodyPositions
  cases h : impl.forcedBodyPositionFunctionId with
  | none => simp [h]
  | some id => rfl

/-- C12: starting with no hook armed, after every sequence of `setForcedBodyPosition` calls
(naming bodies of the run) and `clearForcedBodyPositions` calls, the host holds at most one
registration of `doSetForcedBodyPosition`, and it holds one exactly when
`forcedBodyPositionFunctionId` is set; a request made while armed leaves the registrations
as they are; a request made while unarmed registers one; after `clearForcedBodyPositions`
there is none and the id is unset. -/
theorem forced_position_hook_at_most_one (impl : BCSimulatorItemImpl)
    (calls : List ForcedPositionCall)
    (hnone : impl.forcedBodyPositionFunctionId = none)
    (hzero : forcedPositionHooks impl = 0)
    (hpresent : ∀ bodyItem T, ForcedPositionCall.setForcedBodyPosition bodyItem T ∈ calls →
      (impl.self.findSimulationBody bodyItem).isSome) :
    forcedPositionHooks (impl.calls calls) ≤ 1 ∧
    (forcedPositionHooks (impl.calls calls) = 1 ↔
      (impl.calls calls).forcedBodyPositionFunctionId.isSome) ∧
    (∀ bodyItem T, (impl.calls calls).forcedBodyPositionFunctionId.isSome →
      ((impl.calls calls).setForcedBodyPosition bodyItem T).self.postDynamicsFunctions =
        (impl.calls calls).self.postDynamicsFunctions) ∧
    (∀ bodyItem T, (impl.calls calls).forcedBodyPositionFunctionId = none →
      (impl.self.findSimulationBody bodyItem).isSome →
      forcedPositionHooks ((impl.calls calls).setForcedBodyPosition bodyItem T) = 1) ∧
    forcedPositionHooks (impl.calls calls).clearForcedBodyPositions = 0 ∧
    (impl.calls calls).clearForcedBodyPositions.forcedBodyPositionFunctionId = none := by
  have hinv := calls_hook_invariant impl calls hpresent (Or.inl ⟨hnone, hzero⟩)
  have hsim : ∀ (cs : List ForcedPositionCall) (i : BCSimulatorItemImpl),
      (i.calls cs).self.simBodies = i.self.simBodies := by
    intro cs
    induction cs with
    | nil => intro i; rfl
    | cons c cs ih =>
      intro i
      simp only [BCSimulatorItemImpl.calls, List.foldl_cons] at ih ⊢
      rw [ih, call_simBodies]
  have hclear := call_hook_invariant (impl.calls calls) .clearForcedBodyPositions
    (by intro bodyItem T h; cases h) hinv
  simp only [BCSimulatorItemImpl.call] at hclear
  have hcid := clearForcedBodyPositions_functionId (impl.calls calls)
  refine ⟨?_, ?_, ?_, ?_, ?_, hcid⟩
  · rcases hinv with ⟨-, h0⟩ | ⟨id, -, h1, -⟩ <;> omega
  · rcases hinv with ⟨hn, h0⟩ | ⟨id, hid, h1, -⟩
    · simp [hn, h0]
    · simp [hid, h1]
  · intro bodyItem T harmed
    exact (setForcedBodyPosition_armed _ bodyItem T harmed).1
  · intro bodyItem T hunarmed hbody
    have hbody' : ((impl.calls calls).self.findSimulationBody bodyItem).isSome := by
      simpa [SimulatorItem.findSimulationBody, hsim] using hbody
    have hreq := call_hook_invariant (impl.calls calls) (.setForcedBodyPosition bodyItem T)
      (by intro b T' h; cases h; exact hbody') hinv
    simp only [BCSimulatorItemImpl.call] at hreq
    obtain ⟨-, hi⟩ := setForcedBodyPosition_unarmed _ bodyItem T hunarmed hbody'
    rcases hreq with ⟨hn, -⟩ | ⟨id, -, h1, -⟩
    · rw [hi] at hn; cases hn
    · exact h1
  · rcases hclear with ⟨-, h0⟩ | ⟨id, hid, -, -⟩
    · exact h0
    · rw [hcid] at hid; cases hid

theorem forced_position_hook_at_most_one_witness :
    (sampleImpl.forcedBodyPositionFunctionId = none ∧ forcedPositionHooks sampleImpl = 0 ∧
      ∀ bodyItem T, ForcedPositionCall.setForcedBodyPosition bodyItem T ∈ sampleCalls →
        (sampleImpl.self.findSimulationBody bodyItem).isSome) ∧
    forcedPositionHooks (sampleImpl.calls sampleCalls) ≤ 1 ∧
    (forcedPositionHooks (sampleImpl.calls sampleCalls) = 1 ↔
      (sampleImpl.calls sampleCalls).forcedBodyPositionFunctionId.isSome) ∧
    (∀ bodyItem T, (sampleImpl.calls sampleCalls).forcedBodyPositionFunctionId.isSome →
      ((sampleImpl.calls sampleCalls).setForcedBodyPosition bodyItem T).self.postDynamicsFunctions =
        (sampleImpl.calls sampleCalls).self.postDynamicsFunctions) ∧
    (∀ bodyItem T, (sampleImpl.calls sampleCalls).forcedBodyPositionFunctionId = none →
      (sampleImpl.self.findSimulationBody bodyItem).isSome →
      forcedPositionHooks ((sampleImpl.calls sampleCalls).setForcedBodyPosition bodyItem T) = 1) ∧
    forcedPositionHooks (sampleImpl.calls sampleCalls).clearForcedBodyPositions = 0 ∧
    (sampleImpl.calls sampleCalls).clearForcedBodyPositions.forcedBodyPositionFunctionId = none :=
  have hpresent : ∀ bodyItem T,
      ForcedPositionCall.setForcedBodyPosition bodyItem T ∈ sampleCalls →
        (sampleImpl.self.findSimulationBody bodyItem).isSome := by
    intro bodyItem T h
    simp only [sampleCalls, List.mem_cons, ForcedPositionCall.setForcedBodyPosition.injEq,
      List.mem_singleton, reduceCtorEq, false_or, List.not_mem_nil, or_false] at h
    rcases h with ⟨rfl, -⟩ | ⟨rfl, -⟩ | ⟨rfl, -⟩ <;> decide
  ⟨⟨rfl, by decide, hpresent⟩,
    forced_position_hook_at_most_one sampleImpl sampleCalls rfl (by decide) hpresent⟩

/-! ## The constructor of `KinematicWalkBody` -/

theorem initialSupportFoot_invariant (body : DyBody) (legged : LeggedBodyHelper) (k : Nat) :
    let pick : Nat → Nat → Nat := fun supportFootIndex i =>
      if body.height (legged.footLink i) < body.height (legged.footLink supportFootIndex)
      then i else supportFootIndex
    let r := (List.range' 1 k).foldl pick 0
    r ≤ k ∧
    (∀ j, j ≤ k → body.height (legged.footLink r) ≤ body.height (legged.footLink j)) ∧
    (∀ j, j ≤ k → body.height (legged.footLink j) = body.height (legged.footLink r) → r ≤ j) := by
  intro pick
  induction k with
  | zero =>
    simp only [List.range'_zero, List.foldl_nil, Nat.le_zero_eq, le_refl, true_and]
    refine ⟨?_, ?_⟩
    · intro j hj; rw [hj]
    · intro j _ _; exact Nat.zero_le j
  | succ k ih =>
    simp only [List.range'_1_concat, List.foldl_append, List.foldl_cons, List.foldl_nil]
    generalize (List.range' 1 k).foldl pick 0 = r at ih
    obtain ⟨hr, hmin, hfirst⟩ := ih
    by_cases hlt : body.height (legged.footLink (1 + k)) < body.height (legged.footLink r)
    · have hpick : pick r (1 + k) = 1 + k := by simp [pick, hlt]
      rw [hpick]
      refine ⟨by omega, ?_, ?_⟩
      · intro j hj
        by_cases hjk : j = 1 + k
        · rw [hjk]
        · exact le_trans (le_of_lt hlt) (hmin j (by omega))
      · intro j hj heq
        by_cases hjk : j = 1 + k
        · omega
        · exfalso
          have := hmin j (by omega)
          rw [heq] at this
          exact absurd (lt_of_lt_of_le hlt this) (lt_irrefl _)
    · have hpick : pick r (1 + k) = r := by simp [pick, hlt]
      rw [hpick]
      refine ⟨by omega, ?_, ?_⟩
      · intro j hj
        by_cases hjk : j = 1 + k
        · rw [hjk]; exact not_lt.mp hlt
        · exact hmin j (by omega)
      · intro j hj heq
        by_cases hjk : j = 1 + k
        · omega
        · exact hfirst j (by omega) heq

/-- C13: for a legged body with at least one foot, the constructor of `KinematicWalkBody`
sets `supportFootIndex` to a valid foot index whose foot has the minimum height of all
feet, the lowest such index among feet tied at the minimum, and roots the traversal at the
link of that foot; the body and the feet are the ones given. -/
theorem constructor_picks_lowest_foot (identity : Nat) (body : DyBody)
    (legged : LeggedBodyHelper) (hfeet : 1 ≤ legged.numFeet) :
    ∃ walk : KinematicWalk,
      (KinematicWalkBody identity body legged).walk = some walk ∧
      (KinematicWalkBody identity body legged).body = body ∧
      walk.legged = legged ∧
      walk.supportFootIndex < legged.numFeet ∧
      (∀ j, j < legged.numFeet →
        body.height (legged.footLink walk.supportFootIndex) ≤
          body.height (legged.footLink j)) ∧
      (∀ j, j < legged.numFeet →
        body.height (legged.footLink j) =
          body.height (legged.footLink walk.supportFootIndex) →
        walk.supportFootIndex ≤ j) ∧
      walk.traverse = LinkTraverse.find (legged.footLink walk.supportFootIndex) := by
  obtain ⟨hr, hmin, hfirst⟩ := initialSupportFoot_invariant body legged (legged.numFeet - 1)
  refine ⟨_, rfl, rfl, rfl, ?_, ?_, ?_, rfl⟩
  · show initialSupportFootIndex body legged < legged.numFeet
    have : initialSupportFootIndex body legged ≤ legged.numFeet - 1 := hr
    omega
  · intro j hj
    exact hmin j (by omega)
  · intro j hj heq
    exact hfirst j (by omega) heq

theorem constructor_picks_lowest_foot_witness :
    1 ≤ sampleLegged.numFeet ∧
    ∃ walk : KinematicWalk,
      (KinematicWalkBody 1 sampleSteppingBiped sampleLegged).walk = some walk ∧
      (KinematicWalkBody 1 sampleSteppingBiped sampleLegged).body = sampleSteppingBiped ∧
      walk.legged = sampleLegged ∧
      walk.supportFootIndex < sampleLegged.numFeet ∧
      (∀ j, j < sampleLegged.numFeet →
        sampleSteppingBiped.height (sampleLegged.footLink walk.supportFootIndex) ≤
          sampleSteppingBiped.height (sampleLegged.footLink j)) ∧
      (∀ j, j < sampleLegged.numFeet →
        sampleSteppingBiped.height (sampleLegged.footLink j) =
          sampleSteppingBiped.height (sampleLegged.footLink walk.supportFootIndex) →
        walk.supportFootIndex ≤ j) ∧
      walk.traverse = LinkTraverse.find (sampleLegged.footLink walk.supportFootIndex) :=
  ⟨by decide, constructor_picks_lowest_foot 1 sampleSteppingBiped sampleLegged (by decide)⟩

/-! ## The frame indices of the high-gain controller -/

theorem control_fields (c : HighGainControllerItem) :
    c.control.2.qseqRef = c.qseqRef ∧ c.control.2.lastFrame = c.lastFrame ∧
      c.control.2.numJoints = c.numJoints := by
  simp only [HighGainControllerItem.control]
  split <;> exact ⟨rfl, rfl, rfl⟩

theorem control_currentFrame (c : HighGainControllerItem)
    (h : 0 ≤ c.currentFrame ∧ c.currentFrame ≤ c.lastFrame) :
    0 ≤ c.control.2.currentFrame ∧ c.control.2.currentFrame ≤ c.control.2.lastFrame := by
  simp only [HighGainControllerItem.control]
  split
  · simp only [le_refl, and_true]; omega
  · simp only; omega

theorem controlTimes_invariant (k : Nat) (c : HighGainControllerItem)
    (h : 0 ≤ c.currentFrame ∧ c.currentFrame ≤ c.lastFrame) :
    (controlTimes k c).qseqRef = c.qseqRef ∧ (controlTimes k c).lastFrame = c.lastFrame ∧
      0 ≤ (controlTimes k c).currentFrame ∧
      (controlTimes k c).currentFrame ≤ (controlTimes k c).lastFrame := by
  induction k generalizing c with
  | zero => exact ⟨rfl, rfl, h.1, h.2⟩
  | succ k ih =>
    obtain ⟨hq, hl, -⟩ := control_fields c
    obtain ⟨h1, h2, h3, h4⟩ := ih c.control.2 (control_currentFrame c h)
    simp only [controlTimes]
    exact ⟨by rw [h1, hq], by rw [h2, hl], h3, h4⟩

/-- C14: after a successful start (which implies at least one frame) and any number `k` of
further `control()` calls, `lastFrame = numFrames - 1` and the indices of `output()` satisfy
`0 ≤ prevFrame ≤ currentFrame ≤ nextFrame ≤ lastFrame`, so the three frame lookups are
inside the motion; `control()` returns false exactly when `currentFrame + 1` exceeds
`lastFrame`, and then leaves `currentFrame` equal to `lastFrame`. -/
theorem frame_indices_in_range (rateDiffers : Double → Double → Bool)
    (c : HighGainControllerItem) (target : Target) (k : Nat)
    (hstart : (c.start rateDiffers target).1 = true) :
    1 ≤ c.qseqRef.numFrames ∧
    (controlTimes k (c.start rateDiffers target).2).qseqRef = c.qseqRef ∧
    (controlTimes k (c.start rateDiffers target).2).lastFrame = c.qseqRef.numFrames - 1 ∧
    0 ≤ (controlTimes k (c.start rateDiffers target).2).prevFrame ∧
    (controlTimes k (c.start rateDiffers target).2).prevFrame ≤
      (controlTimes k (c.start rateDiffers target).2).currentFrame ∧
    (controlTimes k (c.start rateDiffers target).2).currentFrame ≤
      (controlTimes k (c.start rateDiffers target).2).nextFrame ∧
    (controlTimes k (c.start rateDiffers target).2).nextFrame ≤
      (controlTimes k (c.start rateDiffers target).2).lastFrame ∧
    (controlTimes k (c.start rateDiffers target).2).prevFrame.toNat < c.qseqRef.frames.length ∧
    (controlTimes k (c.start rateDiffers target).2).currentFrame.toNat < c.qseqRef.frames.length ∧
    (controlTimes k (c.start rateDiffers target).2).nextFrame.toNat < c.qseqRef.frames.length ∧
    (∀ body : DyBody, (controlTimes k (c.start rateDiffers target).2).output body =
      (List.range (controlTimes k (c.start rateDiffers target).2).numJoints.toNat).foldl
        (outputJoint (controlTimes k (c.start rateDiffers target).2).qseqRef
          (controlTimes k (c.start rateDiffers target).2).prevFrame
          (controlTimes k (c.start rateDiffers target).2).currentFrame
          (controlTimes k (c.start rateDiffers target).2).nextFrame) body) ∧
    ((controlTimes k (c.start rateDiffers target).2).control.1 = false ↔
      (controlTimes k (c.start rateDiffers target).2).lastFrame <
        (controlTimes k (c.start rateDiffers target).2).currentFrame + 1) ∧
    ((controlTimes k (c.start rateDiffers target).2).control.1 = false →
      (controlTimes k (c.start rateDiffers target).2).control.2.currentFrame =
        (controlTimes k (c.start rateDiffers target).2).lastFrame) := by
  obtain ⟨hn, heq⟩ := start_success rateDiffers c target hstart
  have hinit : 0 ≤ (c.start rateDiffers target).2.currentFrame ∧
      (c.start rateDiffers target).2.currentFrame ≤ (c.start rateDiffers target).2.lastFrame := by
    rw [heq]
    simp only
    split <;> omega
  obtain ⟨hq, hl, h0, h1⟩ := controlTimes_invariant k (c.start rateDiffers target).2 hinit
  have hq' : (controlTimes k (c.start rateDiffers target).2).qseqRef = c.qseqRef := by
    rw [hq, heq]
  have hl' : (controlTimes k (c.start rateDiffers target).2).lastFrame = c.qseqRef.numFrames - 1 := by
    rw [hl, heq]
  generalize controlTimes k (c.start rateDiffers target).2 = c' at hq' hl' h0 h1
  have hlen : (c.qseqRef.frames.length : Int) = c.qseqRef.numFrames := rfl
  refine ⟨hn, hq', hl', ?_, ?_, ?_, ?_, ?_, ?_, ?_, fun _ => rfl, ?_, ?_⟩
  · simp only [HighGainControllerItem.prevFrame]; omega
  · simp only [HighGainControllerItem.prevFrame]; omega
  · simp only [HighGainControllerItem.nextFrame]; omega
  · simp only [HighGainControllerItem.nextFrame]; omega
  · simp only [HighGainControllerItem.prevFrame]; omega
  · omega
  · simp only [HighGainControllerItem.nextFrame]; omega
  · simp only [HighGainControllerItem.control]
    split
    · simp only [true_iff]; omega
    · simp only [Bool.true_eq_false, false_iff]; omega
  · simp only [HighGainControllerItem.control]
    split
    · intro _; rfl
    · intro h; cases h

theorem frame_indices_in_range_witness :
    (sampleController.start sampleRateDiffers sampleTarget).1 = true ∧
    1 ≤ sampleController.qseqRef.numFrames ∧
    sampleRun.qseqRef = sampleController.qseqRef ∧
    sampleRun.lastFrame = sampleController.qseqRef.numFrames - 1 ∧
    0 ≤ sampleRun.prevFrame ∧
    sampleRun.prevFrame ≤
      sampleRun.currentFrame ∧
    sampleRun.currentFrame ≤
      sampleRun.nextFrame ∧
    sampleRun.nextFrame ≤
      sampleRun.lastFrame ∧
    sampleRun.prevFrame.toNat < sampleController.qseqRef.frames.length ∧
    sampleRun.currentFrame.toNat < sampleController.qseqRef.frames.length ∧
    sampleRun.nextFrame.toNat < sampleController.qseqRef.frames.length ∧
    (∀ body : DyBody, sampleRun.output body =
      (List.range sampleRun.numJoints.toNat).foldl
        (outputJoint sampleRun.qseqRef
          sampleRun.prevFrame
          sampleRun.currentFrame
          sampleRun.nextFrame) body) ∧
    (sampleRun.control.1 = false ↔
      sampleRun.lastFrame <
        sampleRun.currentFrame + 1) ∧
    (sampleRun.control.1 = false →
      sampleRun.control.2.currentFrame =
        sampleRun.lastFrame) :=
  have hstart : (sampleController.start sampleRateDiffers sampleTarget).1 = true := by
    norm_num [HighGainControllerItem.start, sampleRateDiffers, sampleController, sampleTarget,
      sampleMotion, MultiValueSeq.numFrames]
  ⟨hstart, frame_indices_in_range sampleRateDiffers sampleController sampleTarget 3 hstart⟩

end BCSimulator
